import Mathlib

/-!
Verification of the marketplace simulation core (patient escort service).

This file shallowly embeds the parts of the code base that the checked
properties are about:

* `src/src/models/entities.py`      -- User, Escort, Order records
* `src/src/modules/matching.py`     -- MatchingEngine (the main fulfillment engine)
* `src/src/modules/matching_enhanced.py` -- the running-mean rating variant
* `src/src/modules/complaint_handler.py` -- complaint rate and conversion modifier
* `src/src/modules/demand.py`       -- retained-pool lifecycle hazard, modifier clamp
* `src/src/modules/supply.py`       -- training completion
* `src/src/config/settings.py`      -- SimulationConfig.validate
* `src/src/simulation.py`           -- the construction-time validation gate

Python floats are modelled as rationals, datetimes as integers
(wall-clock origin plus day offset), uuid identities as naturals.
Randomness is modelled by explicit streams: `rnd` models the values of
successive `random.random()` calls (uniform draws) and `zrnd` models the
standard-normal deviates behind successive `np.random.normal` calls, so
`np.random.normal(m, s)` is `m + s * z` with `z` the next stream value.
Both streams come with an index that advances exactly where the source
consumes a draw.
-/

namespace PP

/-- Escort lifecycle states, from entities.EscortStatus. -/
inductive EscortStatus
  | training
  | available
  | serving
  | rest
  | churned
  deriving DecidableEq

/-- Order states, from entities.OrderStatus. -/
inductive OrderStatus
  | pending
  | matched
  | serving
  | completed
  | cancelled
  | failed
  deriving DecidableEq

/-- Match type tags, entities.Order.match_type strings. -/
inductive MatchType
  | designated
  | history
  | normal
  deriving DecidableEq

/-- Cancellation reasons; each constructor stands for one of the literal
strings assigned to Order.cancel_reason in matching.py. -/
inductive CancelReason
  | over_max_attempts
  | all_escorts_busy
  | wait_other_escorts
  | no_nearby_escort
  | service_problem
  | timeout_unmatched
  deriving DecidableEq

/-- User lifecycle strings from entities.User.lifecycle_state. -/
inductive LifecycleState
  | active
  | at_risk
  | silent
  | churned
  | reactivated
  deriving DecidableEq

/-- entities.User.  Hospitals are coded as naturals (see
`RESTRICTED_HOSPITALS`).  Presentation-only fields that no embedded code
path reads (disease type, service period, coordinates, channel fields)
are omitted.  The fields `rejected/attempt` live on Order.  The two
fields `designated_escort_id` and `last_escort_id` are id-based
back-references, as in the source. -/
structure User where
  id : Nat
  target_hospital : Nat := 0
  is_repurchase : Bool := false
  total_orders : Nat := 0
  is_children_purchase : Bool := true
  age : Nat := 70
  lifecycle_state : LifecycleState := .active
  days_since_last_order : Nat := 0
  designated_escort_id : Option Nat := none
  history_escort_ids : List Nat := []
  last_escort_id : Option Nat := none
  last_escort_rating : Option ℚ := none
  deriving DecidableEq

/-- entities.User.has_designated_escort -/
def User.has_designated_escort (u : User) : Bool :=
  u.designated_escort_id.isSome

/-- entities.User.has_history_escort -/
def User.has_history_escort (u : User) : Bool :=
  u.last_escort_id.isSome

/-- entities.User.add_history_escort: record the escort, and promote it to
designated when the rating is at least 4.8. -/
def User.add_history_escort (u : User) (escort_id : Nat) (rating : ℚ) : User :=
  let u1 :=
    { u with
      history_escort_ids :=
        if escort_id ∈ u.history_escort_ids then u.history_escort_ids
        else u.history_escort_ids ++ [escort_id],
      last_escort_id := some escort_id,
      last_escort_rating := some rating }
  if rating ≥ 48/10 then { u1 with designated_escort_id := some escort_id } else u1

/-- entities.Escort.  join_day is the simulated day the escort joined
(the source stores datetime.now() at creation; supply code derives days
in simulation units).  training_complete_day models
training_complete_date. -/
structure Escort where
  id : Nat
  status : EscortStatus := .training
  join_day : Nat := 0
  training_complete_day : Option Nat := none
  total_orders : Nat := 0
  total_income : ℚ := 0
  rating : ℚ := 5
  specialized_hospitals : List Nat := []
  current_order_id : Option Nat := none
  churn_risk : ℚ := 1/2
  has_certification : Bool := false
  daily_income_target : ℚ := 200
  current_daily_income : ℚ := 0
  deriving DecidableEq

/-- entities.Order.  `escort` is an id-based reference into the engine
store (the source holds the object; object identity is the id).  The
fields `rejected_escorts` and `match_attempts` are read and written by
matching.py but absent from the provided entities.py.
Modelled from the spec: the Request record carries a rejection history
(providers who declined) and an attempt counter bounded by a
maximum-retry limit, both starting empty/zero on a fresh request. -/
structure Order where
  id : Nat
  user : User
  escort : Option Nat := none
  status : OrderStatus := .pending
  price : ℚ := 0
  created_at : Int := 0
  matched_at : Option Int := none
  service_start_at : Option Int := none
  completed_at : Option Int := none
  service_duration : ℚ := 0
  rating : Option ℚ := none
  is_success : Bool := false
  cancel_reason : Option CancelReason := none
  match_type : MatchType := .normal
  is_designated_matched : Bool := false
  rejected_escorts : List Nat := []
  match_attempts : Nat := 0
  deriving DecidableEq

/-- MatchingEngine.MAX_MATCH_ATTEMPTS -/
def MAX_MATCH_ATTEMPTS : Nat := 10

/-- MatchingEngine.RESTRICTED_HOSPITALS: the 18 restricted hospitals,
coded 0..17 (0 = Xiehe, 1 = 301, 2 = Beiyisanyuan, ...). -/
def RESTRICTED_HOSPITALS : List Nat :=
  [0, 1, 2, 3, 4, 5, 6, 7, 8, 9, 10, 11, 12, 13, 14, 15, 16, 17]

/-- Escort.update_rating.
Modelled from the spec: the method body is not in the provided sources;
the spec mandates exponential smoothing (new rating = blend of prior
rating and new score) and the call site comment in matching.py line 306
gives the fixed weights: old rating 90 percent + new score 10 percent. -/
def update_rating (old score : ℚ) : ℚ :=
  (9/10) * old + (1/10) * score

/-- The rating update of matching_enhanced.py lines 263-266: a flat
arithmetic running mean over all completed orders, where `n` is the
already-incremented total_orders. -/
def enhanced_mean_update (old : ℚ) (n : Nat) (score : ℚ) : ℚ :=
  (old * ((n : ℚ) - 1) + score) / (n : ℚ)

/-- np.random.normal(mean, std) where `z` is the standard-normal deviate
supplied by the stream. -/
def np_normal (mean std z : ℚ) : ℚ :=
  mean + std * z

/-- MatchingEngine._get_daily_order_limit: rating-derived daily capacity. -/
def get_daily_order_limit (e : Escort) : Nat :=
  if e.rating ≥ 49/10 then 4
  else if e.rating ≥ 47/10 then 3
  else if e.rating ≥ 45/10 then 3
  else if e.rating ≥ 43/10 then 2
  else 1

/-- MatchingEngine.match_statistics counters. -/
structure MatchStats where
  designated_requests : Nat := 0
  designated_success : Nat := 0
  history_requests : Nat := 0
  history_success : Nat := 0
  normal_matches : Nat := 0
  deriving DecidableEq

/-- The engine parameters: configuration values read by matching.py plus
the two external collaborators.
`willingness` -- Modelled from the spec: Escort.calculate_acceptance_willingness
is not in the provided sources; the spec describes a stochastic
willingness-to-accept gate that is a function of the offered price and
the current daily load of the provider, so it is kept as an abstract
function of (escort, price, orders accepted today).
`geo` -- the optional GeoMatcher collaborator: given an order and the
candidate list it returns the nearest candidate and its distance, or
none (find_nearest_escort with a GeoMatchResult without escort). `now`
models datetime.now() of the run. -/
structure EngineEnv where
  willingness : Escort → ℚ → Nat → ℚ
  geo : Option (Order → List Escort → Option (Escort × ℚ)) := none
  service_success_rate : ℚ := 95/100
  satisfaction_mean : ℚ := 45/10
  satisfaction_std : ℚ := 3/10
  service_duration_mean : ℚ := 3
  service_duration_std : ℚ := 1
  escort_commission : ℚ := 7/10
  now : Int := 0

/-- MatchingEngine state: the escort store (id-keyed, as the SupplySimulator
dict), the available-escort id list handed to process_orders, the four order
lists, the daily acceptance counter (daily_order_count with default 0), the
two random streams with their positions, and the complaint counter standing
for the complaints the optional handler accumulated. -/
structure MatchState where
  escorts : Nat → Escort
  avail : List Nat
  waiting : List Order := []
  serving : List Order := []
  completed : List Order := []
  failed : List Order := []
  dailyCount : Nat → Nat := fun _ => 0
  rnd : Nat → ℚ
  ri : Nat := 0
  zrnd : Nat → ℚ
  zi : Nat := 0
  complaint_count : Nat := 0
  stats : MatchStats := {}

/-- MatchingEngine._get_escort_by_id: first candidate with the id. -/
def get_escort_by_id (eid : Nat) : List Escort → Option Escort
  | [] => none
  | e :: rest => if e.id = eid then some e else get_escort_by_id eid rest

/-- MatchingEngine._is_escort_suitable. -/
def is_escort_suitable (cnt : Nat → Nat) (e : Escort) (o : Order) : Bool :=
  if e.rating < 4 then false
  else if get_daily_order_limit e ≤ cnt e.id then false
  else if e.status ≠ EscortStatus.available then false
  else if o.user.target_hospital ∈ RESTRICTED_HOSPITALS ∧ e.has_certification = false then false
  else true

/-- python max(lst, key=rating): first element of maximal rating
(a later element replaces the current best only when strictly greater). -/
def max_by_rating : List Escort → Option Escort
  | [] => none
  | e :: rest =>
    some (rest.foldl (fun b x => if x.rating > b.rating then x else b) e)

/-- The fallback of _normal_match (matching.py lines 266-275): the
best-rated specialist for the target hospital, else the best-rated
candidate. -/
def normal_fallback (o : Order) (candidates : List Escort) : Option Nat × Order :=
  if candidates.filter (fun e => o.user.target_hospital ∈ e.specialized_hospitals) ≠ [] then
    ((max_by_rating (candidates.filter
        (fun e => o.user.target_hospital ∈ e.specialized_hospitals))).map Escort.id, o)
  else ((max_by_rating candidates).map Escort.id, o)

/-- MatchingEngine._normal_match: geo nearest first (rejecting a best
match beyond 15 km), falling back to the best-rated specialist for the
target hospital, then the best-rated candidate. -/
def normal_match (env : EngineEnv) (o : Order) (candidates : List Escort) :
    Option Nat × Order :=
  match env.geo with
  | some f =>
    if candidates ≠ [] then
      match f o candidates with
      | some (e, dist) =>
        if dist > 15 then (none, { o with cancel_reason := some .no_nearby_escort })
        else (some e.id, o)
      | none => normal_fallback o candidates
    else normal_fallback o candidates
  | none => normal_fallback o candidates

/-- The willingness filter loop of _find_best_escort lines 162-171: one
uniform draw per candidate; a draw above the willingness value records a
rejection on the order and bumps its attempt counter, otherwise the
candidate is kept. Returns (willing candidates, updated order, new
stream position). -/
def willing_loop (env : EngineEnv) (cnt : Nat → Nat) :
    List Escort → Order → (Nat → ℚ) → Nat → List Escort × Order × Nat
  | [], o, _, ri => ([], o, ri)
  | e :: rest, o, rnd, ri =>
    if rnd ri > env.willingness e o.price (cnt e.id) then
      willing_loop env cnt rest
        { o with rejected_escorts := o.rejected_escorts ++ [e.id],
                 match_attempts := o.match_attempts + 1 } rnd (ri + 1)
    else
      let r := willing_loop env cnt rest o rnd (ri + 1)
      (e :: r.1, r.2.1, r.2.2)

/-- Result of one _find_best_escort call: chosen escort id (if any), the
order with its accumulated mutations, the advanced uniform-stream
position, and the updated match statistics. -/
structure FindResult where
  escort : Option Nat
  order : Order
  ri : Nat
  stats : MatchStats

/-- Priority 3 of _find_best_escort: tag the order as a normal match,
bump the counter and delegate to _normal_match. -/
def choose_normal (env : EngineEnv) (willing : List Escort) (o : Order)
    (ri : Nat) (stats : MatchStats) : FindResult :=
  let stats1 := { stats with normal_matches := stats.normal_matches + 1 }
  let r := normal_match env { o with match_type := .normal } willing
  ⟨r.1, r.2, ri, stats1⟩

/-- Priority 2 of _find_best_escort: the last escort who served the user,
when present among the willing candidates and suitable. -/
def choose_history (env : EngineEnv) (cnt : Nat → Nat) (willing : List Escort)
    (o : Order) (ri : Nat) (stats : MatchStats) : FindResult :=
  if o.user.has_history_escort then
    let stats1 := { stats with history_requests := stats.history_requests + 1 }
    match o.user.last_escort_id with
    | some lid =>
      match get_escort_by_id lid willing with
      | some h =>
        if is_escort_suitable cnt h o then
          ⟨some h.id, { o with match_type := .history }, ri,
            { stats1 with history_success := stats1.history_success + 1 }⟩
        else choose_normal env willing o ri stats1
      | none => choose_normal env willing o ri stats1
    | none => choose_normal env willing o ri stats1
  else choose_normal env willing o ri stats

/-- Priority 1 of _find_best_escort: the designated escort of the user,
when present among the willing candidates and suitable. -/
def choose_designated (env : EngineEnv) (cnt : Nat → Nat) (willing : List Escort)
    (o : Order) (ri : Nat) (stats : MatchStats) : FindResult :=
  if o.user.has_designated_escort then
    let stats1 := { stats with designated_requests := stats.designated_requests + 1 }
    match o.user.designated_escort_id with
    | some did =>
      match get_escort_by_id did willing with
      | some d =>
        if is_escort_suitable cnt d o then
          ⟨some d.id,
            { o with match_type := .designated, is_designated_matched := true }, ri,
            { stats1 with designated_success := stats1.designated_success + 1 }⟩
        else choose_history env cnt willing o ri stats1
      | none => choose_history env cnt willing o ri stats1
    | none => choose_history env cnt willing o ri stats1
  else choose_history env cnt willing o ri stats

/-- MatchingEngine._find_best_escort: candidate screening (capacity and
rating floor), rejection-list filter, willingness loop, then the three
matching priorities. -/
def find_best_escort (env : EngineEnv) (escorts : Nat → Escort)
    (avail : List Nat) (cnt : Nat → Nat) (rnd : Nat → ℚ) (ri : Nat)
    (stats : MatchStats) (o : Order) : FindResult :=
  if avail = [] then
    ⟨none, { o with cancel_reason := some .all_escorts_busy }, ri, stats⟩
  else
    let cand1 := (avail.map escorts).filter
      (fun e => cnt e.id < get_daily_order_limit e ∧ e.rating ≥ 4)
    if cand1 = [] then
      ⟨none, { o with cancel_reason := some .all_escorts_busy }, ri, stats⟩
    else
      let cand2 := cand1.filter (fun e => e.id ∉ o.rejected_escorts)
      let w := willing_loop env cnt cand2 o rnd ri
      if w.1 = [] then
        if w.2.1.rejected_escorts.length < avail.length then
          ⟨none, { w.2.1 with cancel_reason := some .wait_other_escorts }, w.2.2, stats⟩
        else
          ⟨none, { w.2.1 with cancel_reason := some .all_escorts_busy }, w.2.2, stats⟩
      else
        choose_designated env cnt w.1 w.2.1 w.2.2 stats

/-- ComplaintHandler.generate_complaint as seen from the engine: one
uniform draw decides whether the failure produces a complaint (the draw
above 0.30 means no complaint); a complaint consumes a second draw for
the type sampling (random.choices) and is counted. -/
def gen_complaint (st : MatchState) : MatchState :=
  if st.rnd st.ri > 3/10 then { st with ri := st.ri + 1 }
  else { st with ri := st.ri + 2, complaint_count := st.complaint_count + 1 }

/-- Point update of the escort store. -/
def set_escort (escorts : Nat → Escort) (eid : Nat) (e : Escort) : Nat → Escort :=
  fun j => if j = eid then e else escorts j

/-- One iteration of the _match_orders loop for one waiting order.  An
order at the attempt cap is force-failed; otherwise _find_best_escort
runs and on success the order starts serving (matched and service-start
timestamps are wall clock plus day, a service duration is drawn, the
escort turns serving, the daily count rises, and an escort that reaches
its limit leaves the available list); an unmatched order stays in the
queue with its recorded rejections. -/
def match_step (env : EngineEnv) (day : Nat) (st : MatchState) (o : Order) :
    MatchState :=
  if MAX_MATCH_ATTEMPTS ≤ o.match_attempts then
    { st with failed := st.failed ++
        [{ o with cancel_reason := some .over_max_attempts, status := .failed }] }
  else
    let r := find_best_escort env st.escorts st.avail st.dailyCount st.rnd st.ri st.stats o
    match r.escort with
    | none => { st with waiting := st.waiting ++ [r.order], ri := r.ri, stats := r.stats }
    | some eid =>
      let e := st.escorts eid
      let t : Int := env.now + (day : Int)
      let dur := max (1/2)
        (np_normal env.service_duration_mean env.service_duration_std (st.zrnd st.zi))
      let o2 := { r.order with
        escort := some eid, status := .serving,
        matched_at := some t, service_start_at := some t, service_duration := dur }
      let cnt2 := fun j => if j = eid then st.dailyCount eid + 1 else st.dailyCount j
      let esc2 := set_escort st.escorts eid
        { e with status := .serving, current_order_id := some o.id }
      let avail2 :=
        if get_daily_order_limit e ≤ cnt2 eid then st.avail.erase eid else st.avail
      { st with escorts := esc2, avail := avail2, dailyCount := cnt2,
                serving := st.serving ++ [o2],
                ri := r.ri, zi := st.zi + 1, stats := r.stats }

/-- MatchingEngine._match_orders.  The source iterates over the waiting
queue collecting matched and force-failed orders and removes them from
the queue after the loop; since order ids are distinct this equals the
sequential fold below, which rebuilds the queue from the orders that
stay pending. -/
def match_orders (env : EngineEnv) (day : Nat) (st : MatchState) : MatchState :=
  st.waiting.foldl (match_step env day) { st with waiting := [] }

/-- One iteration of the _process_serving_orders loop: a Bernoulli draw
against service_success_rate; success rates the service (bounded normal
satisfaction score), credits the escort (count, income, smoothed
rating), frees it and updates the user history; failure frees the escort
and files a complaint.  The completed list is truncated to the last 3000
records (memory protection). -/
def serve_step (env : EngineEnv) (day : Nat) (st : MatchState) (o : Order) :
    MatchState :=
  if st.rnd st.ri < env.service_success_rate then
    let score := max 1 (min 5
      (np_normal env.satisfaction_mean env.satisfaction_std (st.zrnd st.zi)))
    let o2 := { o with status := .completed, is_success := true,
                       completed_at := some (env.now + (day : Int)),
                       rating := some score }
    let st1 := { st with ri := st.ri + 1, zi := st.zi + 1 }
    let st2 :=
      match o.escort with
      | some eid =>
        let e := st.escorts eid
        let earned := o.price * env.escort_commission
        let e2 := { e with total_orders := e.total_orders + 1,
                           total_income := e.total_income + earned,
                           current_daily_income := e.current_daily_income + earned,
                           rating := update_rating e.rating score,
                           status := .available, current_order_id := none }
        { st1 with escorts := set_escort st.escorts eid e2 }
      | none => st1
    let o3 :=
      match o.escort with
      | some eid =>
        { o2 with user :=
            { (o2.user.add_history_escort eid score) with
                days_since_last_order := 0, lifecycle_state := .active } }
      | none => o2
    let comp := st2.completed ++ [o3]
    let comp2 := if 3000 < comp.length then comp.drop (comp.length - 3000) else comp
    { st2 with completed := comp2 }
  else
    let o2 := { o with status := .failed, is_success := false,
                       cancel_reason := some .service_problem }
    let st1 := { st with ri := st.ri + 1 }
    let st2 :=
      match o.escort with
      | some eid =>
        let e2 := { st.escorts eid with status := .available, current_order_id := none }
        { st1 with escorts := set_escort st.escorts eid e2 }
      | none => st1
    let st3 := gen_complaint st2
    { st3 with failed := st3.failed ++ [o2] }

/-- MatchingEngine._process_serving_orders.  The source appends every
serving order to a local processed list and removes each processed order
from the serving list after the loop, leaving it empty; the fold below
therefore starts from an emptied serving list. -/
def process_serving_orders (env : EngineEnv) (day : Nat) (st : MatchState) :
    MatchState :=
  st.serving.foldl (serve_step env day) { st with serving := [] }

/-- One iteration of the _process_timeout_orders loop: the still-waiting
order fails (keeping an earlier cancel reason if one was recorded) and a
complaint may be filed. -/
def timeout_step (st : MatchState) (o : Order) : MatchState :=
  let o2 := { o with status := .failed, is_success := false,
                     cancel_reason := some (o.cancel_reason.getD .timeout_unmatched) }
  let st1 := gen_complaint st
  { st1 with failed := st1.failed ++ [o2] }

/-- MatchingEngine._process_timeout_orders: every order still waiting at
end of day is failed and the queue is cleared. -/
def process_timeout_orders (st : MatchState) : MatchState :=
  st.waiting.foldl timeout_step { st with waiting := [] }

/-- MatchingEngine.process_orders: enqueue the new orders, match, serve,
then time out the rest. -/
def process_orders (env : EngineEnv) (new_orders : List Order) (day : Nat)
    (st : MatchState) : MatchState :=
  let st1 := { st with waiting := st.waiting ++ new_orders }
  let st2 := match_orders env day st1
  let st3 := process_serving_orders env day st2
  process_timeout_orders st3

/-- MatchingEngine.reset_daily_count (orchestrator step 8). -/
def reset_daily_count (st : MatchState) : MatchState :=
  { st with dailyCount := fun _ => 0 }

/-! ### Complaint Ledger (complaint_handler.py) -/

/-- ComplaintHandler.COMPLAINT_CONVERSION_IMPACT: -0.0045 (every extra
percentage point of complaint rate lowers conversion by 0.45 percent). -/
def COMPLAINT_CONVERSION_IMPACT : ℚ := -(9/2000)

/-- The modifier computation of _update_complaint_rate lines 215-218:
impact is the linear map of the complaint rate in percent, and the
modifier is 1 + impact clamped below at 0.5. -/
def conversion_modifier_of_rate (rate : ℚ) : ℚ :=
  max (1/2) (1 + COMPLAINT_CONVERSION_IMPACT * (rate * 100))

/-- ComplaintHandler state: the creation days of filed complaints, the
current day, the rolling 30-day window of daily order counts, the live
complaint rate and the emitted conversion modifier. -/
structure ComplaintHandlerState where
  complaint_days : List Nat := []
  current_day : Nat := 0
  daily_orders_window : List Nat := []
  current_complaint_rate : ℚ := 0
  conversion_rate_modifier : ℚ := 1
  deriving DecidableEq

/-- ComplaintHandler._update_complaint_rate: push the day volume into
the 30-slot window (dropping the oldest element beyond 30); when the
window holds no orders return unchanged; otherwise the rate is the
30-day complaint count over the window volume and the modifier follows
`conversion_modifier_of_rate`. -/
def update_complaint_rate (st : ComplaintHandlerState) (today_orders : Nat) :
    ComplaintHandlerState :=
  let w1 := st.daily_orders_window ++ [today_orders]
  let w2 := if 30 < w1.length then w1.drop 1 else w1
  let recent_orders := w2.sum
  if recent_orders = 0 then { st with daily_orders_window := w2 }
  else
    let recent_complaints :=
      (st.complaint_days.filter (fun d => st.current_day - d ≤ 30)).length
    let rate := (recent_complaints : ℚ) / (recent_orders : ℚ)
    { st with daily_orders_window := w2,
              current_complaint_rate := rate,
              conversion_rate_modifier := conversion_modifier_of_rate rate }

/-- DemandGenerator.set_conversion_rate_modifier (demand.py lines 88-90):
the incoming modifier is clamped into the band [0.5, 1]. -/
def set_conversion_rate_modifier (m : ℚ) : ℚ :=
  max (1/2) (min 1 m)

/-! ### Demand Generator retained-pool lifecycle (demand.py) -/

/-- The daily churn hazard of _update_user_lifecycle_states lines 67-73:
a rate tiered purely by the total order count of the user (first-order
users 0.55/30, 2-3 orders 0.25/30, regulars 0.10/30). -/
def daily_churn_rate (u : User) : ℚ :=
  if u.total_orders = 1 then (55/100) / 30
  else if u.total_orders ≤ 3 then (25/100) / 30
  else (10/100) / 30

/-- One pool member step of _update_user_lifecycle_states: age the user
by a day, then churn on the hazard draw, else flag at-risk after 30
silent days. -/
def update_user_lifecycle (u : User) (draw : ℚ) : User :=
  let u1 := { u with days_since_last_order := u.days_since_last_order + 1 }
  if draw < daily_churn_rate u1 then { u1 with lifecycle_state := .churned }
  else if 30 < u1.days_since_last_order then { u1 with lifecycle_state := .at_risk }
  else u1

/-- The modulated hazard of the separate UserLifecycleTracker module
(user_lifecycle_tracker.py simulate_daily_churn lines 281-294): rating
multiplies the hazard and a designated escort halves it.  That module is
not invoked by the Demand Generator; the definition is included to
contrast with `daily_churn_rate`. -/
def tracker_modulated_hazard (base : ℚ) (avg_rating : ℚ) (has_designated : Bool) : ℚ :=
  let h1 :=
    if avg_rating > 0 then
      if avg_rating ≥ 48/10 then base * (7/10)
      else if avg_rating ≥ 45/10 then base
      else if avg_rating ≥ 4 then base * (15/10)
      else base * (25/10)
    else base
  if has_designated then h1 * (1/2) else h1

/-! ### Supply Pool training completion (supply.py) -/

/-- The supply-side configuration fields used by training completion. -/
structure SupplyCfg where
  training_days : Nat := 7
  training_pass_rate : ℚ := 8/10
  deriving DecidableEq

/-- SupplySimulator._process_training_completion, lines 90-103.  The
source computes `days_since_join = day` -- the global day counter, not
the days since the escort joined (its join date field is never read) --
and resolves every training escort with a pass/fail draw as soon as the
global day reaches training_days. -/
def process_training_completion (cfg : SupplyCfg) (day : Nat) (rnd : Nat → ℚ) :
    List Escort → Nat → List Escort × Nat
  | [], ri => ([], ri)
  | e :: rest, ri =>
    if e.status = EscortStatus.training then
      let days_since_join := day
      if cfg.training_days ≤ days_since_join then
        let e2 :=
          if rnd ri < cfg.training_pass_rate then
            { e with status := .available, training_complete_day := some day }
          else
            { e with status := .churned }
        let r := process_training_completion cfg day rnd rest (ri + 1)
        (e2 :: r.1, r.2)
      else
        let r := process_training_completion cfg day rnd rest ri
        (e :: r.1, r.2)
    else
      let r := process_training_completion cfg day rnd rest ri
      (e :: r.1, r.2)

/-- SupplySimulator._recruit_new_escorts: a recruit enters in the
training state on the current day. -/
def recruit_escort (eid : Nat) (day : Nat) : Escort :=
  { id := eid, status := .training, join_day := day }

/-! ### Configuration validation (settings.py, simulation.py) -/

/-- settings.SimulationConfig: the validated fields plus the capacity
limit (daily_order_limit), which validate never checks. -/
structure SimulationConfig where
  total_days : Int := 90
  exposure_rate : ℚ := 5/100
  click_rate : ℚ := 2/100
  consult_rate : ℚ := 30/100
  order_rate : ℚ := 20/100
  price_mean : ℚ := 200
  price_std : ℚ := 50
  daily_order_limit : Nat := 3
  escort_commission : ℚ := 7/10
  service_success_rate : ℚ := 95/100
  random_seed : Nat := 42
  deriving DecidableEq

/-- settings.SimulationConfig.validate, lines 133-143: the exact chain
of assertions (total days positive, the four funnel rates in (0,1],
positive price mean, commission in (0,1), success rate in (0,1]);
`true` means every assertion passes. -/
def SimulationConfig.validate (c : SimulationConfig) : Bool :=
  decide (0 < c.total_days) &&
  (decide (0 < c.exposure_rate) && decide (c.exposure_rate ≤ 1)) &&
  (decide (0 < c.click_rate) && decide (c.click_rate ≤ 1)) &&
  (decide (0 < c.consult_rate) && decide (c.consult_rate ≤ 1)) &&
  (decide (0 < c.order_rate) && decide (c.order_rate ≤ 1)) &&
  decide (0 < c.price_mean) &&
  (decide (0 < c.escort_commission) && decide (c.escort_commission < 1)) &&
  (decide (0 < c.service_success_rate) && decide (c.service_success_rate ≤ 1))

/-- The construction gate of simulation.py lines 29-31 (and likewise
simulation_enhanced.py, simulation_competitive.py): the constructor runs
validate before building any module, so construction yields a simulation
exactly when validate passes.  (The v2.0 template-method base class in
simulation/base.py builds its modules without calling validate.) -/
def simulation_construct (c : SimulationConfig) : Option SimulationConfig :=
  if c.validate then some c else none

/-! ### A seeded one-day run (for the reproducibility property)

The source seeds pythons global generators once from config.random_seed
(matching.py lines 62-63, supply.py, demand.py), after which every draw
is a pure function of the seed.  The generator itself is abstracted by a
linear-congruential generator: what matters for the property is that the
streams are functions of the seed alone, while wall-clock time
(datetime.now()) and uuid identities are separate inputs. -/

/-- One multiplicative-congruential draw (stands in for the seeded
Mersenne Twister). -/
def mcg (s i : Nat) : Nat := (1103515245 * (s + 1) * (i + 1) + 12345) % 2147483648

/-- The uniform stream derived from the seed: values in [0, 1). -/
def urand_of_seed (seed i : Nat) : ℚ :=
  ((mcg seed i % 1024 : Nat) : ℚ) / 1024

/-- The standard-normal deviate stream derived from the seed (values in
[-4, 4); the inverse normal CDF is abstracted, only seed-determinism
matters). -/
def zrand_of_seed (seed i : Nat) : ℚ :=
  (((mcg (seed + 7) i % 2048 : Nat) : ℚ) - 1024) / 256

/-- python round(x, 2) (ties at the half-cent are rounded up rather than
to even; no checked property depends on ties). -/
def round2 (q : ℚ) : ℚ := ((⌊q * 100 + 1/2⌋ : ℤ) : ℚ) / 100

/-- DemandGenerator._create_order: price drawn from a bounded normal
around the configured mean, created_at is wall clock plus day. -/
def create_order (price_mean price_std : ℚ) (now : Int) (day : Nat)
    (oid : Nat) (z : ℚ) (u : User) : Order :=
  { id := oid, user := u, price := round2 (max 50 (np_normal price_mean price_std z)),
    created_at := now + (day : Int) }

/-- The per-day aggregates of analytics.record_daily and the engine and
supply statistics: daily GMV (sum of completed order prices), the
completion rate (completed over all tracked orders,
matching.get_statistics), and the provider count (escorts in the
available state, supply.get_statistics). -/
def day_aggregates (roster : List Nat) (st : MatchState) : ℚ × ℚ × Nat :=
  let total := st.completed.length + st.failed.length +
    st.serving.length + st.waiting.length
  let gmv := (st.completed.map Order.price).sum
  let rate := if 0 < total then ((st.completed.length : ℚ) / (total : ℚ)) else 0
  let providers := (roster.filter (fun i => (st.escorts i).status = EscortStatus.available)).length
  (gmv, rate, providers)

/-- The escort roster of the reproducibility run: two available escorts. -/
def run_escort (i : Nat) : Escort :=
  { id := i, status := .available, rating := 5, has_certification := true,
    specialized_hospitals := [0, 1] }

/-- A requester of the reproducibility run. -/
def run_user (i : Nat) : User :=
  { id := i, target_hospital := 0, total_orders := 1 }

/-- One simulated day from a seed and a wall-clock origin: demand
creates two orders (prices from the seeded deviate stream), then the
engine matches and fulfills them.  uuid identities are replaced by fixed
naturals; the willingness gate is instantiated to certain acceptance. -/
def run_day (seed : Nat) (now : Int) : MatchState :=
  let zr := zrand_of_seed seed
  let env : EngineEnv := { willingness := fun _ _ _ => 1, now := now }
  let o0 := create_order 200 50 now 0 100 (zr 0) (run_user 0)
  let o1 := create_order 200 50 now 0 101 (zr 1) (run_user 1)
  let st0 : MatchState :=
    { escorts := run_escort, avail := [0, 1],
      rnd := urand_of_seed seed, zrnd := zr, zi := 2 }
  process_orders env [o0, o1] 0 st0

/-- Both runs of the reproducibility witness feed the engine the same
two demand orders up to the created_at stamp, from the same seed. -/
def c6x_orders (now : Int) : List Order :=
  [create_order 200 50 now 0 100 (zrand_of_seed 42 0) (run_user 0),
   create_order 200 50 now 0 101 (zrand_of_seed 42 1) (run_user 1)]

/-- The common engine environment of the reproducibility witness. -/
def c6x_env : EngineEnv := { willingness := fun _ _ _ => 1, now := 0 }

/-- The common seed-42 initial state of the reproducibility witness. -/
def c6x_state : MatchState :=
  { escorts := run_escort, avail := [0, 1],
    rnd := urand_of_seed 42, zrnd := zrand_of_seed 42, zi := 2 }

/-! ### Concrete scenarios used to settle the claims -/

/-- The rejection ids accumulated by one willingness-loop pass: the same
recursion as `willing_loop`, observing only which candidates reject. -/
def loop_rejections (env : EngineEnv) (cnt : Nat → Nat) :
    List Escort → Order → (Nat → ℚ) → Nat → List Nat
  | [], _, _, _ => []
  | e :: rest, o, rnd, ri =>
    if rnd ri > env.willingness e o.price (cnt e.id) then
      e.id :: loop_rejections env cnt rest
        { o with rejected_escorts := o.rejected_escorts ++ [e.id],
                 match_attempts := o.match_attempts + 1 } rnd (ri + 1)
    else
      loop_rejections env cnt rest o rnd (ri + 1)

/-- Engine with certain acceptance (willingness 1 means a uniform draw
never exceeds it). -/
def env_accept : EngineEnv := { willingness := fun _ _ _ => 1 }

/-- A single escort at rating exactly 4.5, whose capacity is therefore 3. -/
def c1x_escort : Escort :=
  { id := 0, status := .available, rating := 45/10, has_certification := true }

/-- Requesters of the capacity scenario. -/
def c1x_user (i : Nat) : User := { id := i, target_hospital := 0 }

/-- Orders of the capacity scenario. -/
def c1x_order (i : Nat) : Order := { id := i, user := c1x_user i, price := 200 }

/-- Capacity scenario start state: uniform draws all 0 (every
willingness check passes, every service succeeds), normal deviates all
-12 (every satisfaction score clamps to the 1.0 floor). -/
def c1x_state : MatchState :=
  { escorts := fun _ => c1x_escort, avail := [0],
    rnd := fun _ => 0, zrnd := fun _ => -12 }

/-- The capacity scenario after one full day of process_orders. -/
def c1x_final : MatchState :=
  process_orders env_accept [c1x_order 0, c1x_order 1, c1x_order 2] 0 c1x_state

/-- Witness state for the matching-phase capacity invariant. -/
def c1w_state : MatchState :=
  { escorts := fun _ => { id := 0, status := .available, rating := 5 },
    avail := [0], waiting := [c1x_order 0, c1x_order 1],
    rnd := fun _ => 0, zrnd := fun _ => 0 }

/-- Engine whose willingness gate always returns probability 1/2. -/
def c2x_env : EngineEnv := { willingness := fun _ _ _ => 1/2 }

/-- The single eligible escort, designated by the requester. -/
def c2x_escort : Escort :=
  { id := 5, status := .available, rating := 5, has_certification := true }

/-- The requester whose designated escort is escort 5. -/
def c2x_user : User := { id := 0, target_hospital := 0, designated_escort_id := some 5 }

/-- The request of the designated-priority scenario. -/
def c2x_order : Order := { id := 0, user := c2x_user, price := 200 }

/-- Designated-priority scenario: exactly one eligible escort (the
designated one), every uniform draw is 3/4, above the willingness 1/2. -/
def c2x_state : MatchState :=
  { escorts := fun _ => c2x_escort, avail := [5],
    rnd := fun _ => 3/4, zrnd := fun _ => 0 }

/-- The designated-priority scenario after one full day. -/
def c2x_final : MatchState := process_orders c2x_env [c2x_order] 0 c2x_state

/-- The uniform stream of the designated-priority witness scenario. -/
def c2w_rnd : Nat → ℚ := fun _ => 3/4

/-- Engine for the attempt-cap scenario: escorts 0..10 always decline
(willingness 0), escort 11 always accepts. -/
def c3x_env : EngineEnv :=
  { willingness := fun e _ _ => if e.id < 11 then 0 else 1 }

/-- The escort store of the attempt-cap scenario. -/
def c3x_escort (i : Nat) : Escort :=
  { id := i, status := .available, rating := 4, has_certification := true }

/-- The request of the attempt-cap scenario. -/
def c3x_order : Order := { id := 0, user := { id := 0, target_hospital := 0 }, price := 200 }

/-- Attempt-cap scenario: twelve available escorts, uniform draws 1/2. -/
def c3x_state : MatchState :=
  { escorts := c3x_escort, avail := [0, 1, 2, 3, 4, 5, 6, 7, 8, 9, 10, 11],
    rnd := fun _ => 1/2, zrnd := fun _ => 0, waiting := [c3x_order] }

/-- The attempt-cap scenario after the matching pass. -/
def c3x_final : MatchState := match_orders c3x_env 0 c3x_state

/-- An order already at the attempt cap. -/
def c3w_order_capped : Order := { c3x_order with match_attempts := 10 }

/-- Serving-state scenario for the rating-update rule: one order in
service with escort 0, success draw 0, satisfaction deviate 0 (score
4.5). -/
def c4w_state : MatchState :=
  { escorts := fun _ => { id := 0, status := .serving, rating := 5 },
    avail := [],
    serving := [{ id := 0, user := c1x_user 0, escort := some 0,
                  status := .serving, price := 200 }],
    rnd := fun _ => 0, zrnd := fun _ => 0 }

/-- A retained-pool user on their first order, with a designated escort. -/
def c8x_user_designated : User :=
  { id := 0, total_orders := 1, designated_escort_id := some 7,
    last_escort_rating := some 5 }

/-- The same user without a designated escort and with the lowest
possible recorded rating. -/
def c8x_user_plain : User :=
  { id := 1, total_orders := 1, designated_escort_id := none,
    last_escort_rating := some 1 }

/-- A configuration whose only irregularity is a zero capacity limit. -/
def c9x_config : SimulationConfig := { daily_order_limit := 0 }

/-- A configuration with an out-of-range funnel rate. -/
def c9w_config : SimulationConfig := { exposure_rate := 2 }

/-- The serving order of the rating-update witness scenario. -/
def c4w_order : Order :=
  { id := 0, user := c1x_user 0, escort := some 0, status := .serving, price := 200 }

/-! ### Observation modulo wall-clock timestamps

The engine writes wall-clock-derived values (datetime.now() plus the day
offset) only into the four timestamp fields of orders, and no code path
reads them.  `eo` erases those fields; two states related by `SRel`
agree on everything an aggregate or a trajectory comparison can see
except the wall-clock-derived stamps. -/

/-- Erase the wall-clock-derived fields of an order. -/
@[reducible] def eo (o : Order) : Order :=
  { o with created_at := 0, matched_at := none,
           service_start_at := none, completed_at := none }

/-- Overwrite exactly the wall-clock-derived fields of an order. -/
@[reducible] def set_times (o : Order) (c : Int) (m s f : Option Int) : Order :=
  { o with created_at := c, matched_at := m,
           service_start_at := s, completed_at := f }

/-- Agreement of two engine states up to the wall-clock-derived
timestamp fields of their orders. -/
def SRel (s1 s2 : MatchState) : Prop :=
  s1.escorts = s2.escorts ∧ s1.avail = s2.avail ∧
  s1.waiting.map eo = s2.waiting.map eo ∧
  s1.serving.map eo = s2.serving.map eo ∧
  s1.completed.map eo = s2.completed.map eo ∧
  s1.failed.map eo = s2.failed.map eo ∧
  s1.dailyCount = s2.dailyCount ∧ s1.rnd = s2.rnd ∧ s1.ri = s2.ri ∧
  s1.zrnd = s2.zrnd ∧ s1.zi = s2.zi ∧
  s1.complaint_count = s2.complaint_count ∧ s1.stats = s2.stats

/-! ## Theorems -/

/-- Claim C7: the claim says every provider onboarded on day d stays in
training for at least training_days counted from its own onboarding day.
The code instead computes days_since_join as the global day counter
(supply.py line 95), so a provider recruited on day 14 under the default
7-day training window is resolved by the pass/fail draw on day 14
itself, after 0 days of its own training.  Evaluation at this failing
input: the day-14 recruit leaves the training state on day 14 although
its own training time is below the window. -/
theorem c7_code_behavior :
    (process_training_completion {} 14 (fun _ => 0) [recruit_escort 0 14] 0).1.map
        Escort.status = [EscortStatus.available]
    ∧ (process_training_completion {} 14 (fun _ => 0) [recruit_escort 0 14] 0).1.map
        Escort.training_complete_day = [some 14]
    ∧ 14 - (recruit_escort 0 14).join_day < ({} : SupplyCfg).training_days := by
  norm_num [process_training_completion, recruit_escort]

/-- Claim C9, counterexample: a configuration whose capacity limit is
zero passes SimulationConfig.validate and construction succeeds, so it
is false that every zero-capacity configuration fails at construction
(validate, settings.py lines 133-143, checks no capacity field). -/
theorem c9_counterexample :
    c9x_config.daily_order_limit = 0 ∧ c9x_config.validate = true ∧
    simulation_construct c9x_config = some c9x_config := by
  norm_num [c9x_config, SimulationConfig.validate, simulation_construct]

/-- Claim C9, amended: a funnel rate outside (0,1] or a non-positive
price mean makes validate fail, so the validate-calling constructors
never start; the capacity limit is not validated. -/
theorem c9_theorem (c : SimulationConfig)
    (h : ¬ (0 < c.exposure_rate ∧ c.exposure_rate ≤ 1) ∨
         ¬ (0 < c.click_rate ∧ c.click_rate ≤ 1) ∨
         ¬ (0 < c.consult_rate ∧ c.consult_rate ≤ 1) ∨
         ¬ (0 < c.order_rate ∧ c.order_rate ≤ 1) ∨
         ¬ (0 < c.price_mean)) :
    c.validate = false ∧ simulation_construct c = none := by
  have hv : c.validate = false := by
    cases hval : c.validate with
    | false => rfl
    | true =>
      exfalso
      unfold SimulationConfig.validate at hval
      simp only [Bool.and_eq_true, decide_eq_true_eq] at hval
      rcases h with h | h | h | h | h <;> tauto
  refine ⟨hv, ?_⟩
  unfold simulation_construct
  rw [hv]
  rfl

/-- Witness for c9_theorem at a concrete bad rate. -/
theorem c9_witness :
    c9w_config.validate = false ∧ simulation_construct c9w_config = none :=
  c9_theorem c9w_config (Or.inl (by decide))

/-- Claim C8, counterexample: by _update_user_lifecycle_states
(demand.py lines 64-79), two first-order pool members have the same
daily hazard 0.55/30 although one has a designated escort (the claim
says the hazard is halved) and the other carries the lowest recorded
rating (the claim says a low rating multiplies the hazard). -/
theorem c8_counterexample :
    daily_churn_rate c8x_user_designated = 11/600 ∧
    daily_churn_rate c8x_user_plain = 11/600 ∧
    c8x_user_designated.has_designated_escort = true ∧
    c8x_user_plain.has_designated_escort = false ∧
    ¬ daily_churn_rate c8x_user_designated
        = (1/2) * daily_churn_rate c8x_user_plain := by
  norm_num [daily_churn_rate, c8x_user_designated, c8x_user_plain,
    User.has_designated_escort]

/-- Claim C8, amended: the daily churn hazard the Demand Generator
applies to its retained pool depends only on the order-count tier of the
user (0.55/30 for one order, 0.25/30 for at most three, 0.10/30 beyond);
rating and designated-escort presence never enter it. -/
theorem c8_theorem :
    (∀ u v : User, u.total_orders = v.total_orders →
      daily_churn_rate u = daily_churn_rate v) ∧
    (∀ u : User, u.total_orders = 1 → daily_churn_rate u = (55/100) / 30) ∧
    (∀ u : User, u.total_orders ≠ 1 → u.total_orders ≤ 3 →
      daily_churn_rate u = (25/100) / 30) ∧
    (∀ u : User, 3 < u.total_orders → daily_churn_rate u = (10/100) / 30) := by
  refine ⟨fun u v h => ?_, fun u h => ?_, fun u h1 h2 => ?_, fun u h => ?_⟩
  · unfold daily_churn_rate; rw [h]
  · simp [daily_churn_rate, h]
  · simp [daily_churn_rate, h1, h2]
  · have h1 : u.total_orders ≠ 1 := by omega
    have h2 : ¬ u.total_orders ≤ 3 := by omega
    simp [daily_churn_rate, h1, h2]

/-- Witness for c8_theorem: the two pool members of the counterexample
scenario share the hazard of the first-order tier. -/
theorem c8_witness :
    daily_churn_rate c8x_user_designated = daily_churn_rate c8x_user_plain ∧
    daily_churn_rate c8x_user_designated = (55/100) / 30 :=
  ⟨c8_theorem.1 c8x_user_designated c8x_user_plain (by decide),
   c8_theorem.2.1 c8x_user_designated (by decide)⟩

/-- Claim C4: on a successful completion with score r the engine
updates the escort rating with update_rating, the fixed-weight
exponential blend of the prior rating and r (0.9 old + 0.1 new), and
this differs from the flat running mean of matching_enhanced.py: after
a career of one perfect order, a score of 1 smooths to 4.6 while the
running mean would give 3. -/
theorem c4_theorem :
    (∀ (env : EngineEnv) (day : Nat) (st : MatchState) (o : Order) (eid : Nat),
      st.serving = [o] → o.escort = some eid →
      st.rnd st.ri < env.service_success_rate →
      ((process_serving_orders env day st).escorts eid).rating
        = update_rating ((st.escorts eid).rating)
            (max 1 (min 5 (np_normal env.satisfaction_mean env.satisfaction_std
              (st.zrnd st.zi)))))
    ∧ update_rating 5 1 ≠ enhanced_mean_update 5 2 1
    ∧ (∀ old score : ℚ, update_rating old score = (9/10) * old + (1/10) * score) := by
  refine ⟨fun env day st o eid h1 h2 hsucc => ?_, by norm_num [update_rating, enhanced_mean_update], fun _ _ => rfl⟩
  unfold process_serving_orders
  rw [h1]
  simp only [List.foldl_cons, List.foldl_nil]
  unfold serve_step
  simp only [if_pos hsucc, h2]
  simp [set_escort]

/-- Witness for c4_theorem at the one-serving-order scenario. -/
theorem c4_witness :
    ((process_serving_orders env_accept 0 c4w_state).escorts 0).rating
      = update_rating ((c4w_state.escorts 0).rating)
          (max 1 (min 5 (np_normal env_accept.satisfaction_mean
            env_accept.satisfaction_std (c4w_state.zrnd c4w_state.zi)))) :=
  c4_theorem.1 env_accept 0 c4w_state c4w_order 0 rfl rfl
    (by norm_num [c4w_state, env_accept])

/-- Claim C5: the conversion modifier is antitone in the complaint rate
and clamped into [0.5, 1]; the ledger state updated with a positive day
volume carries a modifier equal to the mapping of its own (nonnegative)
rate, and the demand-side setter clamps into the same band. -/
theorem c5_theorem :
    (∀ r1 r2 : ℚ, 0 ≤ r1 → r1 < r2 →
      conversion_modifier_of_rate r2 ≤ conversion_modifier_of_rate r1) ∧
    (∀ r : ℚ, 1/2 ≤ conversion_modifier_of_rate r) ∧
    (∀ r : ℚ, 0 ≤ r → conversion_modifier_of_rate r ≤ 1) ∧
    (∀ (st : ComplaintHandlerState) (n : Nat), 0 < n →
      (update_complaint_rate st n).conversion_rate_modifier
        = conversion_modifier_of_rate
            ((update_complaint_rate st n).current_complaint_rate) ∧
      0 ≤ (update_complaint_rate st n).current_complaint_rate) ∧
    (∀ m : ℚ, 1/2 ≤ set_conversion_rate_modifier m ∧
      set_conversion_rate_modifier m ≤ 1) := by
  refine ⟨fun r1 r2 _ h => ?_, fun r => le_max_left _ _, fun r hr => ?_,
    fun st n hn => ?_, fun m => ⟨le_max_left _ _, ?_⟩⟩
  · unfold conversion_modifier_of_rate COMPLAINT_CONVERSION_IMPACT
    exact max_le_max le_rfl (by nlinarith)
  · unfold conversion_modifier_of_rate COMPLAINT_CONVERSION_IMPACT
    exact max_le (by norm_num) (by nlinarith)
  · unfold update_complaint_rate
    have hmem : n ∈
        (if 30 < (st.daily_orders_window ++ [n]).length
         then (st.daily_orders_window ++ [n]).drop 1
         else st.daily_orders_window ++ [n]) := by
      split
      · rename_i hlen
        have hw : 1 ≤ st.daily_orders_window.length := by
          simp only [List.length_append, List.length_singleton] at hlen
          omega
        rw [List.drop_append_of_le_length hw]
        exact List.mem_append_right _ (by simp)
      · exact List.mem_append_right _ (by simp)
    have hsum : ¬ (if 30 < (st.daily_orders_window ++ [n]).length
         then (st.daily_orders_window ++ [n]).drop 1
         else st.daily_orders_window ++ [n]).sum = 0 := by
      intro h0
      rw [List.sum_eq_zero_iff] at h0
      exact Nat.lt_irrefl 0 (h0 n hmem ▸ hn)
    simp only [if_neg hsum]
    refine ⟨by first | rfl | trivial, ?_⟩
    positivity
  · exact max_le (by norm_num) (min_le_left _ _)

/-- Witness for c5_theorem: the modifier at rate 1 is below the modifier
at rate 0, and a fresh ledger updated with 5 orders carries the mapped
modifier. -/
theorem c5_witness :
    conversion_modifier_of_rate 1 ≤ conversion_modifier_of_rate 0 ∧
    (update_complaint_rate {} 5).conversion_rate_modifier
      = conversion_modifier_of_rate
          ((update_complaint_rate {} 5).current_complaint_rate) :=
  ⟨c5_theorem.1 0 1 (by norm_num) (by norm_num),
   (c5_theorem.2.2.2.1 {} 5 (by norm_num)).1⟩

/-! Helper lemmas for the end-of-day queue claims. -/

/-- gen_complaint changes only the stream position and complaint count. -/
theorem gen_complaint_waiting (st : MatchState) :
    (gen_complaint st).waiting = st.waiting := by
  unfold gen_complaint; split <;> rfl

/-- gen_complaint leaves the serving list unchanged. -/
theorem gen_complaint_serving (st : MatchState) :
    (gen_complaint st).serving = st.serving := by
  unfold gen_complaint; split <;> rfl

/-- timeout_step leaves the waiting queue unchanged. -/
theorem timeout_step_waiting (st : MatchState) (o : Order) :
    (timeout_step st o).waiting = st.waiting := by
  unfold timeout_step gen_complaint
  split <;> rfl

/-- timeout_step leaves the serving list unchanged. -/
theorem timeout_step_serving (st : MatchState) (o : Order) :
    (timeout_step st o).serving = st.serving := by
  unfold timeout_step gen_complaint
  split <;> rfl

/-- serve_step leaves the serving list unchanged. -/
theorem serve_step_serving (env : EngineEnv) (day : Nat) (st : MatchState) (o : Order) :
    (serve_step env day st o).serving = st.serving := by
  unfold serve_step gen_complaint
  split <;> rcases o.escort with _ | eid <;> simp <;> split <;> rfl

/-- serve_step leaves the waiting queue unchanged. -/
theorem serve_step_waiting (env : EngineEnv) (day : Nat) (st : MatchState) (o : Order) :
    (serve_step env day st o).waiting = st.waiting := by
  unfold serve_step gen_complaint
  split <;> rcases o.escort with _ | eid <;> simp <;> split <;> rfl

/-- Folding timeout_step never touches the waiting queue. -/
theorem foldl_timeout_waiting (l : List Order) :
    ∀ st : MatchState, (l.foldl timeout_step st).waiting = st.waiting := by
  induction l with
  | nil => intro st; rfl
  | cons o rest ih => intro st; rw [List.foldl_cons, ih, timeout_step_waiting]

/-- Folding timeout_step never touches the serving list. -/
theorem foldl_timeout_serving (l : List Order) :
    ∀ st : MatchState, (l.foldl timeout_step st).serving = st.serving := by
  induction l with
  | nil => intro st; rfl
  | cons o rest ih => intro st; rw [List.foldl_cons, ih, timeout_step_serving]

/-- Folding serve_step never touches the serving list. -/
theorem foldl_serve_serving (env : EngineEnv) (day : Nat) (l : List Order) :
    ∀ st : MatchState, (l.foldl (serve_step env day) st).serving = st.serving := by
  induction l with
  | nil => intro st; rfl
  | cons o rest ih => intro st; rw [List.foldl_cons, ih, serve_step_serving]

/-- Folding serve_step never touches the waiting queue. -/
theorem foldl_serve_waiting (env : EngineEnv) (day : Nat) (l : List Order) :
    ∀ st : MatchState, (l.foldl (serve_step env day) st).waiting = st.waiting := by
  induction l with
  | nil => intro st; rfl
  | cons o rest ih => intro st; rw [List.foldl_cons, ih, serve_step_waiting]

/-- Claim C10: after every process_orders call the waiting queue and the
serving list are empty, for every input state and every batch of new
orders: _process_serving_orders drains the whole serving list and
_process_timeout_orders clears the queue, so no order survives its day. -/
theorem c10_theorem (env : EngineEnv) (new_orders : List Order) (day : Nat)
    (st : MatchState) :
    (process_orders env new_orders day st).waiting = [] ∧
    (process_orders env new_orders day st).serving = [] := by
  unfold process_orders process_timeout_orders
  constructor
  · rw [foldl_timeout_waiting]
  · rw [foldl_timeout_serving]
    unfold process_serving_orders
    rw [foldl_serve_serving]

/-! Helper lemmas for the matching-priority and capacity claims. -/

/-- The foldl behind max_by_rating stays within the seed and the list. -/
theorem foldl_rating_mem (l : List Escort) :
    ∀ b : Escort,
      l.foldl (fun b x => if x.rating > b.rating then x else b) b = b ∨
      l.foldl (fun b x => if x.rating > b.rating then x else b) b ∈ l := by
  induction l with
  | nil => intro b; left; rfl
  | cons x rest ih =>
    intro b
    rw [List.foldl_cons]
    rcases ih (if x.rating > b.rating then x else b) with h | h
    · rw [h]
      split
      · right; exact List.mem_cons_self _ _
      · left; rfl
    · right; exact List.mem_cons_of_mem _ h

/-- A max_by_rating result is a member of the list. -/
theorem max_by_rating_mem {l : List Escort} {e : Escort}
    (h : max_by_rating l = some e) : e ∈ l := by
  cases l with
  | nil => cases h
  | cons x rest =>
    unfold max_by_rating at h
    rw [Option.some_inj] at h
    rcases foldl_rating_mem rest x with h2 | h2
    · rw [← h, h2]; exact List.mem_cons_self _ _
    · rw [← h]; exact List.mem_cons_of_mem _ h2

/-- The willing candidates returned by the willingness loop come from
its input list. -/
theorem willing_loop_sub (env : EngineEnv) (cnt : Nat → Nat) (rnd : Nat → ℚ) :
    ∀ (l : List Escort) (o : Order) (ri : Nat) {x : Escort},
      x ∈ (willing_loop env cnt l o rnd ri).1 → x ∈ l := by
  intro l
  induction l with
  | nil => intro o ri x h; cases h
  | cons e rest ih =>
    intro o ri x h
    unfold willing_loop at h
    split at h
    · exact List.mem_cons_of_mem _ (ih _ _ h)
    · rcases List.mem_cons.mp h with h1 | h1
      · rw [h1]; exact List.mem_cons_self _ _
      · exact List.mem_cons_of_mem _ (ih _ _ h1)

/-- A successful _get_escort_by_id lookup returns a member carrying the
requested id. -/
theorem get_escort_by_id_mem {eid : Nat} :
    ∀ {l : List Escort} {e : Escort},
      get_escort_by_id eid l = some e → e ∈ l ∧ e.id = eid := by
  intro l
  induction l with
  | nil => intro e h; cases h
  | cons x rest ih =>
    intro e h
    unfold get_escort_by_id at h
    split at h
    · rename_i hx
      rw [Option.some_inj] at h
      exact ⟨by rw [← h]; exact List.mem_cons_self _ _, by rw [← h]; exact hx⟩
    · obtain ⟨h1, h2⟩ := ih h
      exact ⟨List.mem_cons_of_mem _ h1, h2⟩

/-- The fallback of a normal match picks an escort from the candidates. -/
theorem normal_fallback_some {o : Order} {cs : List Escort} {eid : Nat}
    (h : (normal_fallback o cs).1 = some eid) : ∃ e ∈ cs, e.id = eid := by
  unfold normal_fallback at h
  split at h
  · simp only [Option.map_eq_some'] at h
    obtain ⟨e, he, hid⟩ := h
    exact ⟨e, List.mem_of_mem_filter (max_by_rating_mem he), hid⟩
  · simp only [Option.map_eq_some'] at h
    obtain ⟨e, he, hid⟩ := h
    exact ⟨e, max_by_rating_mem he, hid⟩

/-- A normal match picks an escort from the candidate list (assuming the
optional geo collaborator returns candidates, as find_nearest_escort
does). -/
theorem normal_match_some {env : EngineEnv} {o : Order} {cs : List Escort} {eid : Nat}
    (hg : ∀ f, env.geo = some f → ∀ o2 cs2 e d, f o2 cs2 = some (e, d) → e ∈ cs2)
    (h : (normal_match env o cs).1 = some eid) : ∃ e ∈ cs, e.id = eid := by
  unfold normal_match at h
  cases hge : env.geo with
  | none =>
    simp only [hge] at h
    exact normal_fallback_some h
  | some f =>
    simp only [hge] at h
    split at h
    · cases hf : f o cs with
      | none =>
        simp only [hf] at h
        exact normal_fallback_some h
      | some pr =>
        obtain ⟨e, d⟩ := pr
        simp only [hf] at h
        split at h
        · simp at h
        · simp only at h
          rw [Option.some_inj] at h
          exact ⟨e, hg f hge o cs e d hf, h⟩
    · exact normal_fallback_some h

/-- A priority-3 choice comes from the willing list. -/
theorem choose_normal_some {env : EngineEnv} {willing : List Escort} {o : Order}
    {ri : Nat} {stats : MatchStats} {eid : Nat}
    (hg : ∀ f, env.geo = some f → ∀ o2 cs2 e d, f o2 cs2 = some (e, d) → e ∈ cs2)
    (h : (choose_normal env willing o ri stats).escort = some eid) :
    ∃ e ∈ willing, e.id = eid := by
  unfold choose_normal at h
  exact normal_match_some hg h

/-- A priority-2 choice comes from the willing list. -/
theorem choose_history_some {env : EngineEnv} {cnt : Nat → Nat}
    {willing : List Escort} {o : Order} {ri : Nat} {stats : MatchStats} {eid : Nat}
    (hg : ∀ f, env.geo = some f → ∀ o2 cs2 e d, f o2 cs2 = some (e, d) → e ∈ cs2)
    (h : (choose_history env cnt willing o ri stats).escort = some eid) :
    ∃ e ∈ willing, e.id = eid := by
  unfold choose_history at h
  split at h
  · cases hl : o.user.last_escort_id with
    | none => simp only [hl] at h; exact choose_normal_some hg h
    | some lid =>
      simp only [hl] at h
      cases hget : get_escort_by_id lid willing with
      | none => simp only [hget] at h; exact choose_normal_some hg h
      | some e2 =>
        simp only [hget] at h
        split at h
        · rw [Option.some_inj] at h
          exact ⟨e2, (get_escort_by_id_mem hget).1, h⟩
        · exact choose_normal_some hg h
  · exact choose_normal_some hg h

/-- A priority-1 choice comes from the willing list. -/
theorem choose_designated_some {env : EngineEnv} {cnt : Nat → Nat}
    {willing : List Escort} {o : Order} {ri : Nat} {stats : MatchStats} {eid : Nat}
    (hg : ∀ f, env.geo = some f → ∀ o2 cs2 e d, f o2 cs2 = some (e, d) → e ∈ cs2)
    (h : (choose_designated env cnt willing o ri stats).escort = some eid) :
    ∃ e ∈ willing, e.id = eid := by
  unfold choose_designated at h
  split at h
  · cases hl : o.user.designated_escort_id with
    | none => simp only [hl] at h; exact choose_history_some hg h
    | some did =>
      simp only [hl] at h
      cases hget : get_escort_by_id did willing with
      | none => simp only [hget] at h; exact choose_history_some hg h
      | some e2 =>
        simp only [hget] at h
        split at h
        · rw [Option.some_inj] at h
          exact ⟨e2, (get_escort_by_id_mem hget).1, h⟩
        · exact choose_history_some hg h
  · exact choose_history_some hg h

/-- When _find_best_escort returns an escort, that escort was an
available candidate under its capacity at call time. -/
theorem find_best_escort_some {env : EngineEnv} {escorts : Nat → Escort}
    {avail : List Nat} {cnt : Nat → Nat} {rnd : Nat → ℚ} {ri : Nat}
    {stats : MatchStats} {o : Order} {eid : Nat}
    (hg : ∀ f, env.geo = some f → ∀ o2 cs2 e d, f o2 cs2 = some (e, d) → e ∈ cs2)
    (hids : ∀ i ∈ avail, (escorts i).id = i)
    (h : (find_best_escort env escorts avail cnt rnd ri stats o).escort = some eid) :
    eid ∈ avail ∧ cnt eid < get_daily_order_limit (escorts eid) := by
  unfold find_best_escort at h
  split at h
  · cases h
  · simp only [] at h
    split at h
    · cases h
    · split at h
      · split at h <;> cases h
      · obtain ⟨e, hw, hid⟩ := choose_designated_some hg h
        have hc2 := willing_loop_sub env cnt rnd _ _ _ hw
        have hc1 := List.mem_of_mem_filter hc2
        have hmap : e ∈ avail.map escorts := List.mem_of_mem_filter hc1
        have hprop : cnt e.id < get_daily_order_limit e ∧ e.rating ≥ 4 :=
          of_decide_eq_true (List.mem_filter.mp hc1).2
        obtain ⟨i, hi, hei⟩ := List.mem_map.mp hmap
        subst hei
        have hieq : i = eid := by rw [← hids i hi, hid]
        subst hieq
        rw [hids i hi] at hprop
        exact ⟨hi, hprop.1⟩

/-- One matching step preserves id consistency of the available list and
the capacity invariant: a matched escort was strictly under its limit at
acceptance time, and its rating (hence its limit) is unchanged. -/
theorem match_step_inv (env : EngineEnv) (day : Nat) (st : MatchState) (o : Order)
    (hg : ∀ f, env.geo = some f → ∀ o2 cs2 e d, f o2 cs2 = some (e, d) → e ∈ cs2)
    (hids : ∀ i ∈ st.avail, (st.escorts i).id = i)
    (hinv : ∀ i, st.dailyCount i ≤ get_daily_order_limit (st.escorts i)) :
    (∀ i ∈ (match_step env day st o).avail,
      ((match_step env day st o).escorts i).id = i) ∧
    (∀ i, (match_step env day st o).dailyCount i
      ≤ get_daily_order_limit ((match_step env day st o).escorts i)) := by
  unfold match_step
  split
  · exact ⟨hids, hinv⟩
  · cases hr : (find_best_escort env st.escorts st.avail st.dailyCount st.rnd st.ri st.stats o).escort with
    | none => simp only [hr]; exact ⟨hids, hinv⟩
    | some eid =>
      obtain ⟨hmem, hlt⟩ := find_best_escort_some hg hids hr
      simp only [hr]
      constructor
      · intro i hi
        have hsub : ∀ (c : Prop) (inst : Decidable c) (j : Nat),
            j ∈ (if c then st.avail.erase eid else st.avail) → j ∈ st.avail := by
          intro c inst j hj
          split at hj
          · exact List.mem_of_mem_erase hj
          · exact hj
        have hi2 : i ∈ st.avail := hsub _ _ i hi
        unfold set_escort
        split
        · rename_i hieq
          rw [hieq]
          exact hids eid hmem
        · exact hids i hi2
      · intro i
        by_cases hieq : i = eid
        · subst hieq
          have h1 : (set_escort st.escorts i
              { st.escorts i with status := .serving, current_order_id := some o.id } i).rating
              = (st.escorts i).rating := by
            unfold set_escort
            rw [if_pos rfl]
          show (if i = i then st.dailyCount i + 1 else st.dailyCount i)
              ≤ get_daily_order_limit _
          rw [if_pos rfl]
          unfold get_daily_order_limit
          rw [h1]
          unfold get_daily_order_limit at hlt
          omega
        · show (if i = eid then st.dailyCount eid + 1 else st.dailyCount i)
              ≤ get_daily_order_limit _
          rw [if_neg hieq]
          have h1 : set_escort st.escorts eid
              { st.escorts eid with status := .serving, current_order_id := some o.id } i
              = st.escorts i := by
            unfold set_escort
            rw [if_neg hieq]
          rw [h1]
          exact hinv i

/-- Folding match_step preserves both invariants. -/
theorem foldl_match_inv (env : EngineEnv) (day : Nat)
    (hg : ∀ f, env.geo = some f → ∀ o2 cs2 e d, f o2 cs2 = some (e, d) → e ∈ cs2) :
    ∀ (l : List Order) (st : MatchState),
      (∀ i ∈ st.avail, (st.escorts i).id = i) →
      (∀ i, st.dailyCount i ≤ get_daily_order_limit (st.escorts i)) →
      (∀ i ∈ (l.foldl (match_step env day) st).avail,
        ((l.foldl (match_step env day) st).escorts i).id = i) ∧
      (∀ i, (l.foldl (match_step env day) st).dailyCount i
        ≤ get_daily_order_limit ((l.foldl (match_step env day) st).escorts i)) := by
  intro l
  induction l with
  | nil => intro st h1 h2; exact ⟨h1, h2⟩
  | cons o rest ih =>
    intro st h1 h2
    rw [List.foldl_cons]
    obtain ⟨h1s, h2s⟩ := match_step_inv env day st o hg h1 h2
    exact ih _ h1s h2s

/-- Claim C1, amended: throughout the matching phase the daily accepted
count of every provider stays at or below the capacity derived from its
current rating, provided the engine starts the pass that way (the daily
counters are reset each day, so a fresh day starts at zero): every
acceptance happens strictly below the limit and matching does not touch
ratings.  (The geo hypothesis states that the optional geo collaborator
returns one of the candidates it was given, as find_nearest_escort
does; the id hypothesis states that the escort store maps ids to escorts
carrying that id, as the supply dict does.) -/
theorem c1_theorem (env : EngineEnv) (day : Nat) (st : MatchState)
    (hg : ∀ f, env.geo = some f → ∀ o2 cs2 e d, f o2 cs2 = some (e, d) → e ∈ cs2)
    (hids : ∀ i ∈ st.avail, (st.escorts i).id = i)
    (hinv : ∀ i, st.dailyCount i ≤ get_daily_order_limit (st.escorts i)) :
    ∀ i, (match_orders env day st).dailyCount i
      ≤ get_daily_order_limit ((match_orders env day st).escorts i) := by
  unfold match_orders
  exact (foldl_match_inv env day hg st.waiting { st with waiting := [] } hids hinv).2

/-- Witness for c1_theorem on a two-order, one-escort day. -/
theorem c1_witness :
    (match_orders env_accept 0 c1w_state).dailyCount 0
      ≤ get_daily_order_limit ((match_orders env_accept 0 c1w_state).escorts 0) :=
  c1_theorem env_accept 0 c1w_state
    (fun f h => nomatch h)
    (fun i hi => by
      have : i = 0 := List.mem_singleton.mp hi
      rw [this]; rfl)
    (fun i => Nat.zero_le _) 0

/-- Claim C1, counterexample: the escort starts the day at rating 4.5
(capacity 3) and accepts three orders; all three complete with the
lowest satisfaction score, smoothing its rating to 3.5515, whose derived
capacity is 1.  The accepted count 3 now exceeds the rating-derived
capacity 1, violating the claimed whole-day invariant after the rating
updates of completed services. -/
theorem c1_counterexample :
    c1x_final.dailyCount 0 = 3 ∧
    get_daily_order_limit (c1x_final.escorts 0) = 1 ∧
    ¬ c1x_final.dailyCount 0 ≤ get_daily_order_limit (c1x_final.escorts 0) :=
  of_decide_eq_true (by with_unfolding_all rfl)

/-! Helper lemmas for the designated-priority claim. -/

/-- A candidate whose willingness is at least 1 survives the willingness
loop, because the uniform draws stay below 1. -/
theorem willing_loop_keep (env : EngineEnv) (cnt : Nat → Nat) (rnd : Nat → ℚ)
    (hu : ∀ i, rnd i < 1) (e : Escort) :
    ∀ (l : List Escort) (o : Order) (ri : Nat),
      e ∈ l → 1 ≤ env.willingness e o.price (cnt e.id) →
      e ∈ (willing_loop env cnt l o rnd ri).1 := by
  intro l
  induction l with
  | nil => intro o ri h _; cases h
  | cons x rest ih =>
    intro o ri hmem hw
    unfold willing_loop
    rcases List.mem_cons.mp hmem with heq | hmem2
    · subst heq
      rw [if_neg (lt_asymm (lt_of_lt_of_le (hu ri) hw))]
      exact List.mem_cons_self _ _
    · split
      · exact ih _ _ hmem2 hw
      · exact List.mem_cons_of_mem _ (ih _ _ hmem2 hw)

/-- The willingness loop never changes the requester of the order. -/
theorem willing_loop_user (env : EngineEnv) (cnt : Nat → Nat) (rnd : Nat → ℚ) :
    ∀ (l : List Escort) (o : Order) (ri : Nat),
      (willing_loop env cnt l o rnd ri).2.1.user = o.user := by
  intro l
  induction l with
  | nil => intro o ri; rfl
  | cons x rest ih =>
    intro o ri
    unfold willing_loop
    split
    · exact ih _ _
    · exact ih _ _

/-- _get_escort_by_id finds the unique member with the requested id. -/
theorem get_escort_by_id_of_mem {eid : Nat} {e : Escort} :
    ∀ {l : List Escort}, e ∈ l → e.id = eid →
      (∀ x ∈ l, x.id = eid → x = e) →
      get_escort_by_id eid l = some e := by
  intro l
  induction l with
  | nil => intro h _ _; cases h
  | cons x rest ih =>
    intro hmem hid huniq
    unfold get_escort_by_id
    split
    · rename_i hx
      rw [huniq x (List.mem_cons_self _ _) hx]
    · rename_i hx
      rcases List.mem_cons.mp hmem with heq | h2
      · subst heq; exact absurd hid hx
      · exact ih h2 hid (fun y hy hyid => huniq y (List.mem_cons_of_mem _ hy) hyid)

/-- Claim C2, amended: when the designated escort of the requester is an
available candidate -- under its capacity, at or above the rating floor,
not in the rejection list of the request, in the available state and
certified whenever the target hospital is restricted -- and it passes the
willingness-to-accept gate (modelled here by willingness at least 1, so
that the uniform draw in [0,1) cannot reject it), then _find_best_escort
returns exactly that escort, deterministically, tagging the order as a
designated match.  Conditional on passing the stochastic willingness
draw the designated priority is thus deterministic. -/
theorem c2_theorem (env : EngineEnv) (escorts : Nat → Escort) (avail : List Nat)
    (cnt : Nat → Nat) (rnd : Nat → ℚ) (ri : Nat) (stats : MatchStats)
    (o : Order) (eid : Nat)
    (hdes : o.user.designated_escort_id = some eid)
    (hmem : eid ∈ avail)
    (hids : ∀ i ∈ avail, (escorts i).id = i)
    (hcap : cnt eid < get_daily_order_limit (escorts eid))
    (hrat : 4 ≤ (escorts eid).rating)
    (hrej : eid ∉ o.rejected_escorts)
    (hstat : (escorts eid).status = EscortStatus.available)
    (hcert : o.user.target_hospital ∈ RESTRICTED_HOSPITALS →
      (escorts eid).has_certification = true)
    (hu : ∀ i, rnd i < 1)
    (hw : 1 ≤ env.willingness (escorts eid) o.price (cnt eid)) :
    (find_best_escort env escorts avail cnt rnd ri stats o).escort = some eid ∧
    (find_best_escort env escorts avail cnt rnd ri stats o).order.match_type
      = MatchType.designated ∧
    (find_best_escort env escorts avail cnt rnd ri stats o).order.is_designated_matched
      = true := by
  have hide : (escorts eid).id = eid := hids eid hmem
  have hpe : cnt (escorts eid).id < get_daily_order_limit (escorts eid) ∧
      (escorts eid).rating ≥ 4 := by rw [hide]; exact ⟨hcap, hrat⟩
  have he1 : escorts eid ∈ (avail.map escorts).filter
      (fun e => cnt e.id < get_daily_order_limit e ∧ e.rating ≥ 4) :=
    List.mem_filter.mpr ⟨List.mem_map.mpr ⟨eid, hmem, rfl⟩, decide_eq_true hpe⟩
  have he2 : escorts eid ∈ ((avail.map escorts).filter
      (fun e => cnt e.id < get_daily_order_limit e ∧ e.rating ≥ 4)).filter
      (fun e => e.id ∉ o.rejected_escorts) :=
    List.mem_filter.mpr ⟨he1, decide_eq_true (by rw [hide]; exact hrej)⟩
  have hw2 : 1 ≤ env.willingness (escorts eid) o.price (cnt (escorts eid).id) := by
    rw [hide]; exact hw
  have hwl := willing_loop_keep env cnt rnd hu (escorts eid) _ o ri he2 hw2
  unfold find_best_escort
  rw [if_neg (List.ne_nil_of_mem hmem)]
  simp only []
  rw [if_neg (List.ne_nil_of_mem he1)]
  rw [if_neg (List.ne_nil_of_mem hwl)]
  have huser := willing_loop_user env cnt rnd
    (((avail.map escorts).filter
      (fun e => cnt e.id < get_daily_order_limit e ∧ e.rating ≥ 4)).filter
      (fun e => e.id ∉ o.rejected_escorts)) o ri
  unfold choose_designated
  rw [huser]
  have hhd : o.user.has_designated_escort = true := by
    unfold User.has_designated_escort
    rw [hdes]
    rfl
  rw [if_pos hhd]
  simp only [hdes]
  have huniq : ∀ x ∈ (willing_loop env cnt (((avail.map escorts).filter
      (fun e => cnt e.id < get_daily_order_limit e ∧ e.rating ≥ 4)).filter
      (fun e => e.id ∉ o.rejected_escorts)) o rnd ri).1,
      x.id = eid → x = escorts eid := by
    intro x hx hxid
    have hxc2 := willing_loop_sub env cnt rnd _ _ _ hx
    have hxc1 := List.mem_of_mem_filter hxc2
    have hxmap := List.mem_of_mem_filter hxc1
    obtain ⟨j, hj, hje⟩ := List.mem_map.mp hxmap
    have : j = eid := by rw [← hxid, ← hje, hids j hj]
    rw [← hje, this]
  simp only [get_escort_by_id_of_mem hwl hide huniq]
  have hsuit : is_escort_suitable cnt (escorts eid)
      (willing_loop env cnt (((avail.map escorts).filter
        (fun e => cnt e.id < get_daily_order_limit e ∧ e.rating ≥ 4)).filter
        (fun e => e.id ∉ o.rejected_escorts)) o rnd ri).2.1 = true := by
    unfold is_escort_suitable
    rw [if_neg (not_lt.mpr hrat), if_neg (by rw [hide]; exact not_le.mpr hcap),
      if_neg (by rw [hstat]; simp), if_neg ?_]
    rw [huser]
    intro hand
    rw [hcert hand.1] at hand
    exact Bool.noConfusion hand.2
  rw [if_pos hsuit]
  exact ⟨by rw [hide], rfl, rfl⟩

/-- Witness for c2_theorem: the counterexample scenario with an
accepting willingness gate matches the designated escort. -/
theorem c2_witness :
    (find_best_escort env_accept (fun _ => c2x_escort) [5] (fun _ => 0)
      c2w_rnd 0 {} c2x_order).escort = some 5 ∧
    (find_best_escort env_accept (fun _ => c2x_escort) [5] (fun _ => 0)
      c2w_rnd 0 {} c2x_order).order.match_type = MatchType.designated ∧
    (find_best_escort env_accept (fun _ => c2x_escort) [5] (fun _ => 0)
      c2w_rnd 0 {} c2x_order).order.is_designated_matched = true :=
  c2_theorem env_accept (fun _ => c2x_escort) [5] (fun _ => 0) c2w_rnd 0 {}
    c2x_order 5
    rfl
    (List.mem_singleton.mpr rfl)
    (fun i hi => by rw [List.mem_singleton.mp hi]; rfl)
    (by norm_num [c2x_escort, get_daily_order_limit])
    (by norm_num [c2x_escort])
    (by simp [c2x_order])
    rfl
    (fun _ => rfl)
    (fun i => by norm_num [c2w_rnd])
    (by norm_num [env_accept])

/-- Claim C2, counterexample: exactly one eligible escort, designated by
the requester (under capacity, rating floor met, available, certified,
nothing rejected yet), yet with acceptance probability 1/2 and a uniform
draw of 3/4 the willingness gate rejects it: the order is never matched
and fails at end of day with the designated escort in its rejection
list.  The match probability is the willingness probability, not 1. -/
theorem c2_counterexample :
    c2x_order.user.designated_escort_id = some 5 ∧
    c2x_state.dailyCount 5 < get_daily_order_limit (c2x_state.escorts 5) ∧
    4 ≤ (c2x_state.escorts 5).rating ∧
    (c2x_state.escorts 5).status = EscortStatus.available ∧
    (c2x_state.escorts 5).has_certification = true ∧
    c2x_order.rejected_escorts = [] ∧
    c2x_final.serving = [] ∧ c2x_final.completed = [] ∧
    c2x_final.failed.map Order.escort = [none] ∧
    c2x_final.failed.map Order.rejected_escorts = [[5]] :=
  of_decide_eq_true (by with_unfolding_all rfl)

/-- Claim C3, amended, in three parts.  (1) One willingness-loop pass
only appends the declining escorts to the rejection list of the order
and adds their number to its attempt counter; every other field --
status included -- is untouched, so a failed willingness check never by
itself fails the request.  (2) A request examined with its counter
already at the cap (10) is force-failed.  (3) A request examined below
the cap is never failed by the matching step itself, however many
rejections it accumulates inside the pass: only the end-of-day timeout
can fail it. -/
theorem c3_theorem :
    (∀ (env : EngineEnv) (cnt : Nat → Nat) (rnd : Nat → ℚ) (l : List Escort)
       (o : Order) (ri : Nat),
      (willing_loop env cnt l o rnd ri).2.1
        = { o with
            rejected_escorts := o.rejected_escorts ++ loop_rejections env cnt l o rnd ri,
            match_attempts := o.match_attempts + (loop_rejections env cnt l o rnd ri).length }) ∧
    (∀ (env : EngineEnv) (day : Nat) (st : MatchState) (o : Order),
      MAX_MATCH_ATTEMPTS ≤ o.match_attempts →
      (match_step env day st o).failed
        = st.failed ++ [{ o with cancel_reason := some CancelReason.over_max_attempts, status := OrderStatus.failed }]) ∧
    (∀ (env : EngineEnv) (day : Nat) (st : MatchState) (o : Order),
      o.match_attempts < MAX_MATCH_ATTEMPTS →
      (match_step env day st o).failed = st.failed) := by
  refine ⟨fun env cnt rnd l => ?_, fun env day st o h => ?_, fun env day st o h => ?_⟩
  · induction l with
    | nil =>
      intro o ri
      simp [willing_loop, loop_rejections]
    | cons e rest ih =>
      intro o ri
      unfold willing_loop loop_rejections
      by_cases hc : rnd ri > env.willingness e o.price (cnt e.id)
      · rw [if_pos hc, if_pos hc, ih]
        simp only [Order.mk.injEq, List.append_assoc, List.singleton_append,
          List.length_cons, and_true, true_and, eq_self_iff_true]
        omega
      · rw [if_neg hc, if_neg hc]
        exact ih _ _
  · unfold match_step
    rw [if_pos h]
  · unfold match_step
    rw [if_neg (not_le.mpr h)]
    cases hr : (find_best_escort env st.escorts st.avail st.dailyCount st.rnd st.ri st.stats o).escort with
    | none => simp only [hr]
    | some eid => simp only [hr]

/-- Witness for c3_theorem: a capped order is force-failed by the
matching step and a fresh order is not. -/
theorem c3_witness :
    (willing_loop c3x_env (fun _ => 0) [c3x_escort 0] c3x_order (fun _ => (1:ℚ)/2) 0).2.1
      = { c3x_order with
          rejected_escorts := c3x_order.rejected_escorts ++
            loop_rejections c3x_env (fun _ => 0) [c3x_escort 0] c3x_order (fun _ => (1:ℚ)/2) 0,
          match_attempts := c3x_order.match_attempts +
            (loop_rejections c3x_env (fun _ => 0) [c3x_escort 0] c3x_order (fun _ => (1:ℚ)/2) 0).length } ∧
    (match_step c3x_env 0 c3x_state c3w_order_capped).failed
      = c3x_state.failed ++ [{ c3w_order_capped with cancel_reason := some CancelReason.over_max_attempts, status := OrderStatus.failed }] ∧
    (match_step c3x_env 0 c3x_state c3x_order).failed = c3x_state.failed :=
  ⟨c3_theorem.1 c3x_env (fun _ => 0) (fun _ => (1:ℚ)/2) [c3x_escort 0] c3x_order 0,
   c3_theorem.2.1 c3x_env 0 c3x_state c3w_order_capped (by decide),
   c3_theorem.2.2 c3x_env 0 c3x_state c3x_order (by decide)⟩

/-- Claim C3, counterexample to the force-fail-exactly-at-10 clause: a
fresh request is declined by eleven escorts inside one matching pass
(the counter reaches and passes 10) and is then still matched by the
twelfth escort: it ends the pass in service with 11 recorded attempts
and is never force-failed. -/
theorem c3_counterexample :
    c3x_order.match_attempts = 0 ∧
    c3x_final.serving.map Order.match_attempts = [11] ∧
    c3x_final.serving.map Order.escort = [some 11] ∧
    c3x_final.serving.map Order.status = [OrderStatus.serving] ∧
    c3x_final.failed = [] ∧
    MAX_MATCH_ATTEMPTS ≤ 11 :=
  of_decide_eq_true (by with_unfolding_all rfl)

/-! Helper lemmas for the reproducibility claim: no code path reads the
wall-clock-derived timestamp fields, so every engine function transports
along set_times. -/

/-- Orders equal after erasure differ only in their timestamp fields. -/
theorem eo_eq_iff {o1 o2 : Order} (h : eo o1 = eo o2) :
    o1 = set_times o2 o1.created_at o1.matched_at o1.service_start_at o1.completed_at := by
  cases o1
  cases o2
  simp only [eo, set_times, Order.mk.injEq] at h ⊢
  tauto

/-- The willingness loop transports along set_times and ignores the
wall clock of the engine environment. -/
theorem willing_loop_times (env : EngineEnv) (t u : Int) (cnt : Nat → Nat)
    (rnd : Nat → ℚ) :
    ∀ (l : List Escort) (o : Order) (ri : Nat) (c : Int) (m s f : Option Int),
      willing_loop { env with now := t } cnt l (set_times o c m s f) rnd ri
        = ((willing_loop { env with now := u } cnt l o rnd ri).1,
           set_times ((willing_loop { env with now := u } cnt l o rnd ri).2.1) c m s f,
           (willing_loop { env with now := u } cnt l o rnd ri).2.2) := by
  intro l
  induction l with
  | nil => intro o ri c m s f; rfl
  | cons e rest ih =>
    intro o ri c m s f
    unfold willing_loop
    by_cases hc : rnd ri > env.willingness e o.price (cnt e.id)
    · rw [if_pos hc, if_pos hc]
      exact ih { o with rejected_escorts := o.rejected_escorts ++ [e.id],
                        match_attempts := o.match_attempts + 1 } (ri + 1) c m s f
    · rw [if_neg hc, if_neg hc]
      rw [ih o (ri + 1) c m s f]

/-- The normal-match fallback transports along set_times. -/
theorem normal_fallback_times (o : Order) (cs : List Escort) (c : Int)
    (m s f : Option Int) :
    normal_fallback (set_times o c m s f) cs
      = ((normal_fallback o cs).1, set_times (normal_fallback o cs).2 c m s f) := by
  unfold normal_fallback
  by_cases h : cs.filter (fun e => o.user.target_hospital ∈ e.specialized_hospitals) ≠ []
  · rw [if_pos h, if_pos h]
  · rw [if_neg h, if_neg h]

/-- _normal_match transports along set_times, assuming the optional geo
collaborator ignores the timestamp fields (the distance computation of
find_nearest_escort reads only coordinates). -/
theorem normal_match_times (env : EngineEnv) (t u : Int)
    (hg : ∀ g, env.geo = some g →
      ∀ o2 c2 m2 s2 f2 cs2, g (set_times o2 c2 m2 s2 f2) cs2 = g o2 cs2)
    (o : Order) (cs : List Escort) (c : Int) (m s f : Option Int) :
    normal_match { env with now := t } (set_times o c m s f) cs
      = ((normal_match { env with now := u } o cs).1,
         set_times (normal_match { env with now := u } o cs).2 c m s f) := by
  unfold normal_match
  cases hge : env.geo with
  | none =>
    simp only [hge]
    exact normal_fallback_times o cs c m s f
  | some g =>
    simp only [hge]
    by_cases hcs : cs ≠ []
    · rw [if_pos hcs, if_pos hcs]
      rw [hg g hge o c m s f cs]
      cases hf : g o cs with
      | none =>
        simp only [hf]
        exact normal_fallback_times o cs c m s f
      | some pr =>
        obtain ⟨e, d⟩ := pr
        simp only [hf]
        by_cases hd : d > 15
        · rw [if_pos hd, if_pos hd]
        · rw [if_neg hd, if_neg hd]
    · rw [if_neg hcs, if_neg hcs]
      exact normal_fallback_times o cs c m s f

/-- Priority 3 transports along set_times. -/
theorem choose_normal_times (env : EngineEnv) (t u : Int)
    (hg : ∀ g, env.geo = some g →
      ∀ o2 c2 m2 s2 f2 cs2, g (set_times o2 c2 m2 s2 f2) cs2 = g o2 cs2)
    (willing : List Escort) (o : Order) (ri : Nat) (stats : MatchStats)
    (c : Int) (m s f : Option Int) :
    choose_normal { env with now := t } willing (set_times o c m s f) ri stats
      = { escort := (choose_normal { env with now := u } willing o ri stats).escort,
          order := set_times (choose_normal { env with now := u } willing o ri stats).order c m s f,
          ri := (choose_normal { env with now := u } willing o ri stats).ri,
          stats := (choose_normal { env with now := u } willing o ri stats).stats } := by
  unfold choose_normal
  rw [show normal_match { env with now := t }
        { set_times o c m s f with match_type := MatchType.normal } willing
      = normal_match { env with now := t }
        (set_times { o with match_type := MatchType.normal } c m s f) willing from rfl]
  rw [normal_match_times env t u hg { o with match_type := MatchType.normal } willing c m s f]

/-- Suitability ignores the timestamp fields of the order. -/
theorem is_escort_suitable_times (cnt : Nat → Nat) (e : Escort) (o : Order)
    (c : Int) (m s f : Option Int) :
    is_escort_suitable cnt e (set_times o c m s f) = is_escort_suitable cnt e o := rfl

/-- Priority 2 transports along set_times. -/
theorem choose_history_times (env : EngineEnv) (t u : Int)
    (hg : ∀ g, env.geo = some g →
      ∀ o2 c2 m2 s2 f2 cs2, g (set_times o2 c2 m2 s2 f2) cs2 = g o2 cs2)
    (cnt : Nat → Nat) (willing : List Escort) (o : Order) (ri : Nat)
    (stats : MatchStats) (c : Int) (m s f : Option Int) :
    choose_history { env with now := t } cnt willing (set_times o c m s f) ri stats
      = { escort := (choose_history { env with now := u } cnt willing o ri stats).escort,
          order := set_times (choose_history { env with now := u } cnt willing o ri stats).order c m s f,
          ri := (choose_history { env with now := u } cnt willing o ri stats).ri,
          stats := (choose_history { env with now := u } cnt willing o ri stats).stats } := by
  unfold choose_history
  by_cases hh : o.user.has_history_escort = true
  · rw [if_pos hh, if_pos hh]
    cases hl : o.user.last_escort_id with
    | none =>
      simp only [hl]
      exact choose_normal_times env t u hg willing o ri _ c m s f
    | some lid =>
      simp only [hl]
      cases hget : get_escort_by_id lid willing with
      | none =>
        simp only [hget]
        exact choose_normal_times env t u hg willing o ri _ c m s f
      | some e2 =>
        simp only [hget]
        rw [is_escort_suitable_times cnt e2 o c m s f]
        by_cases hsuit : is_escort_suitable cnt e2 o = true
        · rw [if_pos hsuit, if_pos hsuit]
        · rw [if_neg hsuit, if_neg hsuit]
          exact choose_normal_times env t u hg willing o ri _ c m s f
  · rw [if_neg hh, if_neg hh]
    exact choose_normal_times env t u hg willing o ri _ c m s f

/-- Priority 1 transports along set_times. -/
theorem choose_designated_times (env : EngineEnv) (t u : Int)
    (hg : ∀ g, env.geo = some g →
      ∀ o2 c2 m2 s2 f2 cs2, g (set_times o2 c2 m2 s2 f2) cs2 = g o2 cs2)
    (cnt : Nat → Nat) (willing : List Escort) (o : Order) (ri : Nat)
    (stats : MatchStats) (c : Int) (m s f : Option Int) :
    choose_designated { env with now := t } cnt willing (set_times o c m s f) ri stats
      = { escort := (choose_designated { env with now := u } cnt willing o ri stats).escort,
          order := set_times (choose_designated { env with now := u } cnt willing o ri stats).order c m s f,
          ri := (choose_designated { env with now := u } cnt willing o ri stats).ri,
          stats := (choose_designated { env with now := u } cnt willing o ri stats).stats } := by
  unfold choose_designated
  by_cases hh : o.user.has_designated_escort = true
  · rw [if_pos hh, if_pos hh]
    cases hl : o.user.designated_escort_id with
    | none =>
      simp only [hl]
      exact choose_history_times env t u hg cnt willing o ri _ c m s f
    | some did =>
      simp only [hl]
      cases hget : get_escort_by_id did willing with
      | none =>
        simp only [hget]
        exact choose_history_times env t u hg cnt willing o ri _ c m s f
      | some e2 =>
        simp only [hget]
        rw [is_escort_suitable_times cnt e2 o c m s f]
        by_cases hsuit : is_escort_suitable cnt e2 o = true
        · rw [if_pos hsuit, if_pos hsuit]
        · rw [if_neg hsuit, if_neg hsuit]
          exact choose_history_times env t u hg cnt willing o ri _ c m s f
  · rw [if_neg hh, if_neg hh]
    exact choose_history_times env t u hg cnt willing o ri _ c m s f

/-- _find_best_escort transports along set_times: same chosen escort,
same stream advance, same statistics, and the returned order differs
only in its timestamp fields. -/
theorem find_best_escort_times (env : EngineEnv) (t u : Int)
    (hg : ∀ g, env.geo = some g →
      ∀ o2 c2 m2 s2 f2 cs2, g (set_times o2 c2 m2 s2 f2) cs2 = g o2 cs2)
    (escorts : Nat → Escort) (avail : List Nat) (cnt : Nat → Nat) (rnd : Nat → ℚ)
    (ri : Nat) (stats : MatchStats) (o : Order) (c : Int) (m s f : Option Int) :
    find_best_escort { env with now := t } escorts avail cnt rnd ri stats
        (set_times o c m s f)
      = { escort := (find_best_escort { env with now := u } escorts avail cnt rnd ri stats o).escort,
          order := set_times (find_best_escort { env with now := u } escorts avail cnt rnd ri stats o).order c m s f,
          ri := (find_best_escort { env with now := u } escorts avail cnt rnd ri stats o).ri,
          stats := (find_best_escort { env with now := u } escorts avail cnt rnd ri stats o).stats } := by
  unfold find_best_escort
  by_cases h1 : avail = []
  · rw [if_pos h1, if_pos h1]
  · rw [if_neg h1, if_neg h1]
    simp only []
    by_cases h2 : (avail.map escorts).filter
        (fun e => cnt e.id < get_daily_order_limit e ∧ e.rating ≥ 4) = []
    · rw [if_pos h2, if_pos h2]
    · rw [if_neg h2, if_neg h2]
      rw [willing_loop_times env t u cnt rnd _ o ri c m s f]
      by_cases h3 : (willing_loop { env with now := u } cnt
          (((avail.map escorts).filter
            (fun e => cnt e.id < get_daily_order_limit e ∧ e.rating ≥ 4)).filter
            (fun e => e.id ∉ o.rejected_escorts)) o rnd ri).1 = []
      · rw [if_pos h3, if_pos h3]
        by_cases h4 : (willing_loop { env with now := u } cnt
            (((avail.map escorts).filter
              (fun e => cnt e.id < get_daily_order_limit e ∧ e.rating ≥ 4)).filter
              (fun e => e.id ∉ o.rejected_escorts)) o rnd ri).2.1.rejected_escorts.length
            < avail.length
        · rw [if_pos h4, if_pos h4]
        · rw [if_neg h4, if_neg h4]
      · rw [if_neg h3, if_neg h3]
        rw [choose_designated_times env t u hg cnt _ _ _ _ c m s f]

/-- Erasure absorbs set_times. -/
theorem eo_set_times (o : Order) (c : Int) (m s f : Option Int) :
    eo (set_times o c m s f) = eo o := rfl

/-- One matching iteration preserves state agreement up to timestamps. -/
theorem match_step_times (env : EngineEnv) (t u : Int)
    (hg : ∀ g, env.geo = some g →
      ∀ o2 c2 m2 s2 f2 cs2, g (set_times o2 c2 m2 s2 f2) cs2 = g o2 cs2)
    (day : Nat) (s1 s2 : MatchState) (h : SRel s1 s2) (o1 o2 : Order)
    (ho : eo o1 = eo o2) :
    SRel (match_step { env with now := t } day s1 o1)
         (match_step { env with now := u } day s2 o2) := by
  obtain ⟨he, hav, hw, hsv, hc, hf, hdc, hrnd, hri, hz, hzi, hcc, hst⟩ := h
  have hma0 := congrArg Order.match_attempts ho
  have hma : o1.match_attempts = o2.match_attempts := hma0
  have ho1 := eo_eq_iff ho
  unfold match_step
  by_cases hcap : MAX_MATCH_ATTEMPTS ≤ o1.match_attempts
  · have hcap2 : MAX_MATCH_ATTEMPTS ≤ o2.match_attempts := hma ▸ hcap
    rw [if_pos hcap, if_pos hcap2]
    have hfe : eo { o1 with cancel_reason := some CancelReason.over_max_attempts, status := OrderStatus.failed } = eo { o2 with cancel_reason := some CancelReason.over_max_attempts, status := OrderStatus.failed } :=
      congrArg (fun x => { x with cancel_reason := some CancelReason.over_max_attempts, status := OrderStatus.failed }) ho
    exact ⟨he, hav, hw, hsv, hc,
      by simp only [List.map_append, List.map_cons, List.map_nil, hf, hfe],
      hdc, hrnd, hri, hz, hzi, hcc, hst⟩
  · have hcap2 : ¬ MAX_MATCH_ATTEMPTS ≤ o2.match_attempts := hma ▸ hcap
    rw [if_neg hcap, if_neg hcap2]
    simp only []
    rw [ho1, he, hav, hdc, hrnd, hri, hz, hzi, hcc, hst]
    rw [find_best_escort_times env t u hg s2.escorts s2.avail s2.dailyCount s2.rnd
        s2.ri s2.stats o2 o1.created_at o1.matched_at o1.service_start_at o1.completed_at]
    cases hresc : (find_best_escort { env with now := u } s2.escorts s2.avail
        s2.dailyCount s2.rnd s2.ri s2.stats o2).escort with
    | none =>
      simp only [hresc]
      exact ⟨rfl, rfl,
        by simp only [List.map_append, List.map_cons, List.map_nil, hw, eo_set_times],
        hsv, hc, hf, rfl, rfl, rfl, rfl, rfl, rfl, rfl⟩
    | some eid =>
      simp only [hresc]
      refine ⟨rfl, rfl, hw, ?_, hc, hf, rfl, rfl, rfl, rfl, rfl, rfl, rfl⟩
      simp only [List.map_append, List.map_cons, List.map_nil, hsv]

/-- The memory-protection truncation of the completed list respects
erasure-equality. -/
theorem trunc_map_eo (l1 l2 : List Order) (h : l1.map eo = l2.map eo) :
    (if 3000 < l1.length then l1.drop (l1.length - 3000) else l1).map eo
      = (if 3000 < l2.length then l2.drop (l2.length - 3000) else l2).map eo := by
  have hlen : l1.length = l2.length := by
    have := congrArg List.length h
    simpa using this
  rw [hlen]
  by_cases hcnd : 3000 < l2.length
  · rw [if_pos hcnd, if_pos hcnd, List.map_drop, List.map_drop, h]
  · rw [if_neg hcnd, if_neg hcnd]
    exact h

/-- One service-resolution iteration preserves state agreement up to
timestamps. -/
theorem serve_step_times (env : EngineEnv) (t u : Int) (day : Nat)
    (s1 s2 : MatchState) (h : SRel s1 s2) (o1 o2 : Order)
    (ho : eo o1 = eo o2) :
    SRel (serve_step { env with now := t } day s1 o1)
         (serve_step { env with now := u } day s2 o2) := by
  obtain ⟨he, hav, hw, hsv, hc, hf, hdc, hrnd, hri, hz, hzi, hcc, hst⟩ := h
  have ho1 := eo_eq_iff ho
  unfold serve_step
  simp only []
  rw [ho1, he, hav, hdc, hrnd, hri, hz, hzi, hcc, hst]
  by_cases hcnd : s2.rnd s2.ri < env.service_success_rate
  · rw [if_pos hcnd, if_pos hcnd]
    cases hoe : o2.escort with
    | none =>
      simp only [hoe]
      refine ⟨rfl, rfl, hw, hsv, ?_, hf, rfl, rfl, rfl, rfl, rfl, rfl, rfl⟩
      refine trunc_map_eo _ _ ?_
      simp only [List.map_append, List.map_cons, List.map_nil, hc]
    | some eid =>
      simp only [hoe]
      refine ⟨rfl, rfl, hw, hsv, ?_, hf, rfl, rfl, rfl, rfl, rfl, rfl, rfl⟩
      refine trunc_map_eo _ _ ?_
      simp only [List.map_append, List.map_cons, List.map_nil, hc]
  · rw [if_neg hcnd, if_neg hcnd]
    cases hoe : o2.escort with
    | none =>
      simp only [hoe]
      unfold gen_complaint
      by_cases hgc : s2.rnd (s2.ri + 1) > 3/10
      · rw [if_pos hgc, if_pos hgc]
        exact ⟨rfl, rfl, hw, hsv, hc,
          by simp only [List.map_append, List.map_cons, List.map_nil, hf],
          rfl, rfl, rfl, rfl, rfl, rfl, rfl⟩
      · rw [if_neg hgc, if_neg hgc]
        exact ⟨rfl, rfl, hw, hsv, hc,
          by simp only [List.map_append, List.map_cons, List.map_nil, hf],
          rfl, rfl, rfl, rfl, rfl, rfl, rfl⟩
    | some eid =>
      simp only [hoe]
      unfold gen_complaint
      by_cases hgc : s2.rnd (s2.ri + 1) > 3/10
      · rw [if_pos hgc, if_pos hgc]
        exact ⟨rfl, rfl, hw, hsv, hc,
          by simp only [List.map_append, List.map_cons, List.map_nil, hf],
          rfl, rfl, rfl, rfl, rfl, rfl, rfl⟩
      · rw [if_neg hgc, if_neg hgc]
        exact ⟨rfl, rfl, hw, hsv, hc,
          by simp only [List.map_append, List.map_cons, List.map_nil, hf],
          rfl, rfl, rfl, rfl, rfl, rfl, rfl⟩

/-- One timeout iteration preserves state agreement up to timestamps. -/
theorem timeout_step_times (s1 s2 : MatchState) (h : SRel s1 s2)
    (o1 o2 : Order) (ho : eo o1 = eo o2) :
    SRel (timeout_step s1 o1) (timeout_step s2 o2) := by
  obtain ⟨he, hav, hw, hsv, hc, hf, hdc, hrnd, hri, hz, hzi, hcc, hst⟩ := h
  have ho1 := eo_eq_iff ho
  unfold timeout_step
  simp only []
  unfold gen_complaint
  rw [ho1, hrnd, hri, hcc]
  by_cases hgc : s2.rnd s2.ri > 3/10
  · rw [if_pos hgc, if_pos hgc]
    exact ⟨he, hav, hw, hsv, hc,
      by simp only [List.map_append, List.map_cons, List.map_nil, hf],
      hdc, rfl, rfl, hz, hzi, rfl, hst⟩
  · rw [if_neg hgc, if_neg hgc]
    exact ⟨he, hav, hw, hsv, hc,
      by simp only [List.map_append, List.map_cons, List.map_nil, hf],
      hdc, rfl, rfl, hz, hzi, rfl, hst⟩

/-- The matching pass preserves state agreement up to timestamps when
run over two batches equal up to timestamps. -/
theorem foldl_match_times (env : EngineEnv) (t u : Int)
    (hg : ∀ g, env.geo = some g →
      ∀ o2 c2 m2 s2 f2 cs2, g (set_times o2 c2 m2 s2 f2) cs2 = g o2 cs2)
    (day : Nat) :
    ∀ (l1 l2 : List Order), l1.map eo = l2.map eo →
    ∀ (s1 s2 : MatchState), SRel s1 s2 →
      SRel (l1.foldl (match_step { env with now := t } day) s1)
           (l2.foldl (match_step { env with now := u } day) s2) := by
  intro l1
  induction l1 with
  | nil =>
    intro l2 hl s1 s2 h
    cases l2 with
    | nil => exact h
    | cons b l2 => exact absurd hl (by simp)
  | cons a l1 ih =>
    intro l2 hl s1 s2 h
    cases l2 with
    | nil => exact absurd hl (by simp)
    | cons b l2 =>
      simp only [List.map_cons, List.cons.injEq] at hl
      exact ih l2 hl.2 _ _ (match_step_times env t u hg day s1 s2 h a b hl.1)

/-- The service pass preserves state agreement up to timestamps. -/
theorem foldl_serve_times (env : EngineEnv) (t u : Int) (day : Nat) :
    ∀ (l1 l2 : List Order), l1.map eo = l2.map eo →
    ∀ (s1 s2 : MatchState), SRel s1 s2 →
      SRel (l1.foldl (serve_step { env with now := t } day) s1)
           (l2.foldl (serve_step { env with now := u } day) s2) := by
  intro l1
  induction l1 with
  | nil =>
    intro l2 hl s1 s2 h
    cases l2 with
    | nil => exact h
    | cons b l2 => exact absurd hl (by simp)
  | cons a l1 ih =>
    intro l2 hl s1 s2 h
    cases l2 with
    | nil => exact absurd hl (by simp)
    | cons b l2 =>
      simp only [List.map_cons, List.cons.injEq] at hl
      exact ih l2 hl.2 _ _ (serve_step_times env t u day s1 s2 h a b hl.1)

/-- The timeout pass preserves state agreement up to timestamps. -/
theorem foldl_timeout_times :
    ∀ (l1 l2 : List Order), l1.map eo = l2.map eo →
    ∀ (s1 s2 : MatchState), SRel s1 s2 →
      SRel (l1.foldl timeout_step s1) (l2.foldl timeout_step s2) := by
  intro l1
  induction l1 with
  | nil =>
    intro l2 hl s1 s2 h
    cases l2 with
    | nil => exact h
    | cons b l2 => exact absurd hl (by simp)
  | cons a l1 ih =>
    intro l2 hl s1 s2 h
    cases l2 with
    | nil => exact absurd hl (by simp)
    | cons b l2 =>
      simp only [List.map_cons, List.cons.injEq] at hl
      exact ih l2 hl.2 _ _ (timeout_step_times s1 s2 h a b hl.1)

/-- MatchingEngine._match_orders preserves state agreement up to
timestamps. -/
theorem match_orders_times (env : EngineEnv) (t u : Int)
    (hg : ∀ g, env.geo = some g →
      ∀ o2 c2 m2 s2 f2 cs2, g (set_times o2 c2 m2 s2 f2) cs2 = g o2 cs2)
    (day : Nat) (s1 s2 : MatchState) (h : SRel s1 s2) :
    SRel (match_orders { env with now := t } day s1)
         (match_orders { env with now := u } day s2) := by
  obtain ⟨he, hav, hw, hsv, hc, hf, hdc, hrnd, hri, hz, hzi, hcc, hst⟩ := h
  unfold match_orders
  exact foldl_match_times env t u hg day _ _ hw _ _
    ⟨he, hav, rfl, hsv, hc, hf, hdc, hrnd, hri, hz, hzi, hcc, hst⟩

/-- MatchingEngine._process_serving_orders preserves state agreement up
to timestamps. -/
theorem process_serving_orders_times (env : EngineEnv) (t u : Int)
    (day : Nat) (s1 s2 : MatchState) (h : SRel s1 s2) :
    SRel (process_serving_orders { env with now := t } day s1)
         (process_serving_orders { env with now := u } day s2) := by
  obtain ⟨he, hav, hw, hsv, hc, hf, hdc, hrnd, hri, hz, hzi, hcc, hst⟩ := h
  unfold process_serving_orders
  exact foldl_serve_times env t u day _ _ hsv _ _
    ⟨he, hav, hw, rfl, hc, hf, hdc, hrnd, hri, hz, hzi, hcc, hst⟩

/-- MatchingEngine._process_timeout_orders preserves state agreement up
to timestamps. -/
theorem process_timeout_orders_times (s1 s2 : MatchState) (h : SRel s1 s2) :
    SRel (process_timeout_orders s1) (process_timeout_orders s2) := by
  obtain ⟨he, hav, hw, hsv, hc, hf, hdc, hrnd, hri, hz, hzi, hcc, hst⟩ := h
  unfold process_timeout_orders
  exact foldl_timeout_times _ _ hw _ _
    ⟨he, hav, rfl, hsv, hc, hf, hdc, hrnd, hri, hz, hzi, hcc, hst⟩

/-- A full process_orders day preserves state agreement up to
timestamps. -/
theorem process_orders_times (env : EngineEnv) (t u : Int)
    (hg : ∀ g, env.geo = some g →
      ∀ o2 c2 m2 s2 f2 cs2, g (set_times o2 c2 m2 s2 f2) cs2 = g o2 cs2)
    (new1 new2 : List Order) (hnew : new1.map eo = new2.map eo) (day : Nat)
    (s1 s2 : MatchState) (h : SRel s1 s2) :
    SRel (process_orders { env with now := t } new1 day s1)
         (process_orders { env with now := u } new2 day s2) := by
  obtain ⟨he, hav, hw, hsv, hc, hf, hdc, hrnd, hri, hz, hzi, hcc, hst⟩ := h
  unfold process_orders
  simp only []
  exact process_timeout_orders_times _ _
    (process_serving_orders_times env t u day _ _
      (match_orders_times env t u hg day _ _
        ⟨he, hav, by simp only [List.map_append, hw, hnew], hsv, hc, hf,
         hdc, hrnd, hri, hz, hzi, hcc, hst⟩))

/-- The per-day aggregates depend only on the state up to timestamps. -/
theorem day_aggregates_SRel (roster : List Nat) (s1 s2 : MatchState)
    (h : SRel s1 s2) : day_aggregates roster s1 = day_aggregates roster s2 := by
  obtain ⟨he, hav, hw, hsv, hc, hf, hdc, hrnd, hri, hz, hzi, hcc, hst⟩ := h
  have len : ∀ (l1 l2 : List Order), l1.map eo = l2.map eo → l1.length = l2.length := by
    intro l1 l2 hh
    have h2 := congrArg List.length hh
    simpa using h2
  have hp : s1.completed.map Order.price = s2.completed.map Order.price := by
    have h2 := congrArg (List.map Order.price) hc
    rw [List.map_map, List.map_map] at h2
    exact h2
  unfold day_aggregates
  rw [he, hp, len _ _ hw, len _ _ hsv, len _ _ hc, len _ _ hf]

/-- Claim C6 (amended): with the same configuration, the same seeded
random streams and order batches that agree up to the wall-clock
created_at stamp, two runs launched at wall-clock origins t and u
produce states that agree on everything except the four wall-clock
timestamp fields of their orders, and in particular identical per-day
aggregates (GMV, completion rate, provider count); bit-for-bit equality
of the entity trajectories themselves does not hold, because the
timestamp fields come from datetime.now(). -/
theorem c6_theorem (env : EngineEnv) (t u : Int)
    (hg : ∀ g, env.geo = some g →
      ∀ o2 c2 m2 s2 f2 cs2, g (set_times o2 c2 m2 s2 f2) cs2 = g o2 cs2)
    (new1 new2 : List Order) (hnew : new1.map eo = new2.map eo) (day : Nat)
    (s1 s2 : MatchState) (h : SRel s1 s2) (roster : List Nat) :
    SRel (process_orders { env with now := t } new1 day s1)
         (process_orders { env with now := u } new2 day s2)
    ∧ day_aggregates roster (process_orders { env with now := t } new1 day s1)
      = day_aggregates roster (process_orders { env with now := u } new2 day s2) :=
  have hp := process_orders_times env t u hg new1 new2 hnew day s1 s2 h
  ⟨hp, day_aggregates_SRel roster _ _ hp⟩

/-- The reproducibility theorem instantiated at the concrete seed-42
two-order two-escort day, run once from wall-clock origin 0 and once
from origin 1: same aggregates, states equal up to timestamps. -/
theorem c6_witness :
    SRel (process_orders { c6x_env with now := 0 } (c6x_orders 0) 0 c6x_state)
         (process_orders { c6x_env with now := 1 } (c6x_orders 1) 0 c6x_state)
    ∧ day_aggregates [0, 1]
        (process_orders { c6x_env with now := 0 } (c6x_orders 0) 0 c6x_state)
      = day_aggregates [0, 1]
        (process_orders { c6x_env with now := 1 } (c6x_orders 1) 0 c6x_state) :=
  c6_theorem c6x_env 0 1 (fun _ hge => Option.noConfusion hge)
    (c6x_orders 0) (c6x_orders 1) rfl 0 c6x_state c6x_state
    ⟨rfl, rfl, rfl, rfl, rfl, rfl, rfl, rfl, rfl, rfl, rfl, rfl, rfl⟩ [0, 1]

set_option maxRecDepth 100000 in
set_option maxHeartbeats 4000000 in
/-- The bit-for-bit reading of the claim fails: the same seed-42 day
run at wall-clock origins 0 and 1 yields identical aggregates, yet the
created_at trajectories of the processed orders differ (0 versus 1),
because Order.created_at records datetime.now() at creation. -/
theorem c6_counterexample :
    day_aggregates [0, 1] (run_day 42 0) = day_aggregates [0, 1] (run_day 42 1) ∧
    (run_day 42 0).completed.map Order.created_at
      ++ (run_day 42 0).failed.map Order.created_at = [0, 0] ∧
    (run_day 42 1).completed.map Order.created_at
      ++ (run_day 42 1).failed.map Order.created_at = [1, 1] :=
  ⟨Eq.trans
    (by with_unfolding_all rfl :
      day_aggregates [0, 1] (run_day 42 0) = (21563/100, (1:ℚ), 2))
    (Eq.symm (by with_unfolding_all rfl :
      day_aggregates [0, 1] (run_day 42 1) = (21563/100, (1:ℚ), 2))),
   by with_unfolding_all rfl, by with_unfolding_all rfl⟩

end PP
